import Mathlib

/-!
Shallow embedding of the travelplanner-api query/visibility layer:
the soft-delete repository operations of the three route modules
(src/routes/travels.py, src/routes/events.py, src/routes/eventTypes.py)
over an explicit relational state (src/database/db.py), together with
the input sanitization of src/middleware/validation.py.

Strings are modelled by Lean String (UTF-8 code points); SQL text
comparison (memcmp on UTF-8 bytes) is modelled by lexicographic
comparison of code points, which agrees with memcmp on the ASCII data
this API stores.
-/

namespace TravelPlanner

/-- ASCII lower-casing of one character, as done by SQLite LOWER() and by
Python str.lower on ASCII data. -/
def charLower (c : Char) : Char :=
  if 65 ≤ c.toNat ∧ c.toNat ≤ 90 then Char.ofNat (c.toNat + 32) else c

/-- ASCII lower-casing of a string. -/
def strLower (s : String) : String :=
  ⟨s.toList.map charLower⟩

/-- Lexicographic comparison of character lists by code point; on the
ASCII dates and timestamps this API stores it agrees with SQLite text
comparison (memcmp of the UTF-8 encodings). -/
def lexLe : List Char → List Char → Bool
  | [], _ => true
  | _ :: _, [] => false
  | a :: as, b :: bs =>
    if a.toNat < b.toNat then true
    else if a.toNat = b.toNat then lexLe as bs
    else false

/-- SQL `a <= b` on text values. -/
def strLeB (a b : String) : Bool :=
  lexLe a.toList b.toList

/-- Whether `pre` is an initial segment of `l`. -/
def startsWithCh : List Char → List Char → Bool
  | [], _ => true
  | _ :: _, [] => false
  | a :: as, b :: bs => a == b && startsWithCh as bs

/-- Whether `needle` occurs as a contiguous segment of `hay`. -/
def containsSub (needle : List Char) : List Char → Bool
  | [] => startsWithCh needle []
  | c :: rest => startsWithCh needle (c :: rest) || containsSub needle rest

/-- SQL `col LIKE ?` with parameter `%needle%`: substring match,
ASCII-case-insensitive (SQLite LIKE default); a NULL column never
matches. Wildcard characters inside the caller-supplied needle are not
modelled (the API always wraps the raw filter value). -/
def likeSub (needle : String) : Option String → Bool
  | none => false
  | some hay => containsSub (needle.toList.map charLower) (hay.toList.map charLower)

/-- Decimal digits of a natural number, with explicit fuel (the number
itself bounds the digit count). -/
def natCharsAux : Nat → Nat → List Char → List Char
  | 0, _, acc => acc
  | fuel + 1, n, acc =>
    let d := Char.ofNat (48 + n % 10)
    if n < 10 then d :: acc else natCharsAux fuel (n / 10) (d :: acc)

/-- Decimal rendering of a natural number, as Python str(int). -/
def natToStr (n : Nat) : String :=
  ⟨natCharsAux (n + 1) n []⟩

/-- The single-quote character, used inside error detail strings. -/
def sq : String :=
  ⟨[Char.ofNat 39]⟩

/-- Python html.unescape as used by sanitize_string, restricted to the
common named and numeric references that can occur in this API's free
text; all other text passes through unchanged. The fuel argument (one
more than the input length suffices, since every step consumes at least
one character) keeps the recursion structural. -/
def htmlUnescapeAux : Nat → List Char → List Char
  | 0, _ => []
  | _, [] => []
  | fuel + 1, c :: rest =>
    if c = '&' then
      if rest.take 4 = ['a', 'm', 'p', ';'] then '&' :: htmlUnescapeAux fuel (rest.drop 4)
      else if rest.take 3 = ['l', 't', ';'] then '<' :: htmlUnescapeAux fuel (rest.drop 3)
      else if rest.take 3 = ['g', 't', ';'] then '>' :: htmlUnescapeAux fuel (rest.drop 3)
      else if rest.take 5 = ['q', 'u', 'o', 't', ';'] then '"' :: htmlUnescapeAux fuel (rest.drop 5)
      else if rest.take 5 = ['a', 'p', 'o', 's', ';'] then Char.ofNat 39 :: htmlUnescapeAux fuel (rest.drop 5)
      else if rest.take 4 = ['#', '3', '9', ';'] then Char.ofNat 39 :: htmlUnescapeAux fuel (rest.drop 4)
      else c :: htmlUnescapeAux fuel rest
    else c :: htmlUnescapeAux fuel rest

def htmlUnescape (cs : List Char) : List Char :=
  htmlUnescapeAux (cs.length + 1) cs

/-- Removal of HTML tags: Python re.sub of the pattern matching a
less-than sign, any run of characters other than greater-than, then a
greater-than sign (sanitize_string in middleware/validation.py). Fuel
as in htmlUnescapeAux. -/
def stripTagsAux : Nat → List Char → List Char
  | 0, _ => []
  | _, [] => []
  | fuel + 1, c :: rest =>
    if c = '<' then
      if rest.contains '>' then
        stripTagsAux fuel ((rest.dropWhile (fun x => !(x == '>'))).drop 1)
      else
        c :: stripTagsAux fuel rest
    else c :: stripTagsAux fuel rest

def stripTags (cs : List Char) : List Char :=
  stripTagsAux (cs.length + 1) cs

/-- Control characters removed by sanitize_string: C0 controls, DEL and
C1 controls. -/
def isCtl (c : Char) : Bool :=
  c.toNat ≤ 31 || (127 ≤ c.toNat && c.toNat ≤ 159)

/-- Whitespace stripped by Python str.strip (the control-code whitespace
characters have already been removed when strip runs). -/
def isPySpace (c : Char) : Bool :=
  c == ' '

/-- sanitize_input of middleware/validation.py on a string: unescape
HTML entities, drop HTML tags, drop control characters, trim. -/
def sanitizeInput (s : String) : String :=
  let cleaned := (stripTags (htmlUnescape s.toList)).filter (fun c => !isCtl c)
  ⟨(cleaned.dropWhile isPySpace).reverse.dropWhile isPySpace |>.reverse⟩

/-- A proleptic-Gregorian calendar date as produced by
datetime.strptime(...).date(). -/
structure PyDate where
  year : Nat
  month : Nat
  day : Nat
deriving DecidableEq, Repr

/-- Date comparison (Python date ordering). -/
def PyDate.ltb (a b : PyDate) : Bool :=
  a.year < b.year ||
    (a.year == b.year && (a.month < b.month ||
      (a.month == b.month && a.day < b.day)))

/-- Leap-year test of the Gregorian calendar. -/
def isLeap (y : Nat) : Bool :=
  y % 4 == 0 && (y % 100 != 0 || y % 400 == 0)

/-- Length of a month, as validated by datetime construction. -/
def daysInMonth (y m : Nat) : Nat :=
  if m == 2 then (if isLeap y then 29 else 28)
  else if m == 4 || m == 6 || m == 9 || m == 11 then 30
  else 31

/-- One directive or literal character of a strptime format string. -/
inductive FmtItem where
  | year
  | month
  | day
  | lit (c : Char)
deriving DecidableEq, Repr

/-- Interpretation of a strptime format string over the directives this
API uses (year, month, day); any other character is a literal. -/
def parseFormat : List Char → List FmtItem
  | [] => []
  | '%' :: 'Y' :: rest => FmtItem.year :: parseFormat rest
  | '%' :: 'm' :: rest => FmtItem.month :: parseFormat rest
  | '%' :: 'd' :: rest => FmtItem.day :: parseFormat rest
  | c :: rest => FmtItem.lit c :: parseFormat rest

def isDigitCh (c : Char) : Bool :=
  48 ≤ c.toNat && c.toNat ≤ 57

def digitVal (c : Char) : Nat :=
  c.toNat - 48

/-- CPython strptime directive for the year: exactly four digits. -/
def matchYear : List Char → Option (Nat × List Char)
  | a :: b :: c :: d :: rest =>
    if isDigitCh a && isDigitCh b && isDigitCh c && isDigitCh d then
      some (((digitVal a * 10 + digitVal b) * 10 + digitVal c) * 10 + digitVal d, rest)
    else none
  | _ => none

/-- CPython strptime directive for the month: two digits 10-12 or 01-09,
else one digit 1-9. -/
def matchMonth : List Char → Option (Nat × List Char)
  | a :: b :: rest =>
    if isDigitCh a && isDigitCh b then
      let v := digitVal a * 10 + digitVal b
      if 1 ≤ v && v ≤ 12 && digitVal a ≤ 1 then some (v, rest)
      else if 1 ≤ digitVal a then some (digitVal a, b :: rest)
      else none
    else if isDigitCh a && 1 ≤ digitVal a then some (digitVal a, b :: rest)
    else none
  | [a] => if isDigitCh a && 1 ≤ digitVal a then some (digitVal a, []) else none
  | [] => none

/-- CPython strptime directive for the day: two digits 01-31, else one
digit 1-9. -/
def matchDay : List Char → Option (Nat × List Char)
  | a :: b :: rest =>
    if isDigitCh a && isDigitCh b then
      let v := digitVal a * 10 + digitVal b
      if 1 ≤ v && v ≤ 31 && digitVal a ≤ 3 then some (v, rest)
      else if 1 ≤ digitVal a then some (digitVal a, b :: rest)
      else none
    else if isDigitCh a && 1 ≤ digitVal a then some (digitVal a, b :: rest)
    else none
  | [a] => if isDigitCh a && 1 ≤ digitVal a then some (digitVal a, []) else none
  | [] => none

/-- Running a parsed format against an input; collects year, month, day
(strptime defaults: 1900-01-01) and demands full consumption of the
input, as CPython does. -/
def runFormat : List FmtItem → List Char → Nat → Nat → Nat → Option PyDate
  | [], [], y, m, d => some ⟨y, m, d⟩
  | [], _ :: _, _, _, _ => none
  | FmtItem.year :: fs, cs, _, m, d =>
    match matchYear cs with
    | some (v, rest) => runFormat fs rest v m d
    | none => none
  | FmtItem.month :: fs, cs, y, _, d =>
    match matchMonth cs with
    | some (v, rest) => runFormat fs rest y v d
    | none => none
  | FmtItem.day :: fs, cs, y, m, _ =>
    match matchDay cs with
    | some (v, rest) => runFormat fs rest y m v
    | none => none
  | FmtItem.lit c :: fs, x :: cs, y, m, d =>
    if c == x then runFormat fs cs y m d else none
  | FmtItem.lit _ :: _, [], _, _, _ => none

/-- datetime.strptime(s, fmt).date(): directive matching followed by the
calendar validity check performed by date construction. -/
def strptimeDate (fmt s : String) : Option PyDate :=
  match runFormat (parseFormat fmt.toList) s.toList 1900 1 1 with
  | some dt =>
    if 1 ≤ dt.month && dt.month ≤ 12 && 1 ≤ dt.day && dt.day ≤ daysInMonth dt.year dt.month then
      some dt
    else none
  | none => none

/-- A timezone-naive datetime as produced by datetime.fromisoformat on
the datetime strings this API accepts. -/
structure PyDateTime where
  date : PyDate
  hour : Nat
  minute : Nat
  second : Nat
deriving DecidableEq, Repr

/-- Datetime comparison (Python datetime ordering). -/
def PyDateTime.ltb (a b : PyDateTime) : Bool :=
  PyDate.ltb a.date b.date ||
    (a.date == b.date && (a.hour < b.hour ||
      (a.hour == b.hour && (a.minute < b.minute ||
        (a.minute == b.minute && a.second < b.second)))))

def twoDigits : List Char → Option (Nat × List Char)
  | a :: b :: rest =>
    if isDigitCh a && isDigitCh b then some (digitVal a * 10 + digitVal b, rest) else none
  | _ => none

/-- datetime.fromisoformat restricted to the shapes this API exchanges:
a date, optionally followed by a separator and HH:MM or HH:MM:SS time
(second precision, no fractional seconds, no UTC offset). -/
def fromIsoDateTime (s : String) : Option PyDateTime :=
  match matchYear s.toList with
  | none => none
  | some (y, r1) =>
    match r1 with
    | '-' :: r2 =>
      match twoDigits r2 with
      | none => none
      | some (m, r3) =>
        match r3 with
        | '-' :: r4 =>
          match twoDigits r4 with
          | none => none
          | some (d, r5) =>
            if 1 ≤ m && m ≤ 12 && 1 ≤ d && d ≤ daysInMonth y m then
              match r5 with
              | [] => some ⟨⟨y, m, d⟩, 0, 0, 0⟩
              | sep :: r6 =>
                if sep == 'T' || sep == ' ' then
                  match twoDigits r6 with
                  | none => none
                  | some (hh, r7) =>
                    match r7 with
                    | ':' :: r8 =>
                      match twoDigits r8 with
                      | none => none
                      | some (mi, r9) =>
                        if hh ≤ 23 && mi ≤ 59 then
                          match r9 with
                          | [] => some ⟨⟨y, m, d⟩, hh, mi, 0⟩
                          | ':' :: r10 =>
                            match twoDigits r10 with
                            | none => none
                            | some (ss, r11) =>
                              if ss ≤ 59 && r11 = [] then some ⟨⟨y, m, d⟩, hh, mi, ss⟩
                              else none
                          | _ => none
                        else none
                    | _ => none
                else none
            else none
        | _ => none
    | _ => none

/-- A row of the travels table. -/
structure TravelRow where
  id : Nat
  title : String
  description : Option String
  start_date : String
  end_date : String
  destination : Option String
  is_deleted : Nat
  deleted_at : Option String
  created_at : String
  updated_at : String
deriving DecidableEq, Repr

/-- A row of the events table. -/
structure EventRow where
  id : Nat
  travel_id : Nat
  title : String
  description : Option String
  event_type_id : Nat
  start_datetime : String
  end_datetime : String
  location : Option String
  is_deleted : Nat
  deleted_at : Option String
  created_at : String
  updated_at : String
deriving DecidableEq, Repr

/-- A row of the event_types table. -/
structure EventTypeRow where
  id : Nat
  name : String
  category : String
  color : String
  icon : Option String
  is_deleted : Nat
  deleted_at : Option String
  created_at : String
  updated_at : String
deriving DecidableEq, Repr

/-- The relational store: the three tables, rows in rowid order. -/
structure DB where
  travels : List TravelRow
  events : List EventRow
  event_types : List EventTypeRow
deriving DecidableEq, Repr

/-- The domain failure taxonomy of the route modules, carrying the
HTTPException detail string. -/
inductive ApiError where
  | badRequest (detail : String)
  | notFound (detail : String)
  | gone (detail : String)
  | conflict (detail : String)
  | internal (detail : String)
deriving DecidableEq, Repr

/-- HTTP status code of each domain failure. -/
def ApiError.statusCode : ApiError → Nat
  | badRequest _ => 400
  | notFound _ => 404
  | gone _ => 410
  | conflict _ => 409
  | internal _ => 500

/-- The id assigned by execute_insert (SQLite lastrowid: one more than
the largest existing rowid). -/
def nextId (ids : List Nat) : Nat :=
  ids.foldr max 0 + 1

/-- SQLite date() on a stored ISO timestamp: its date part. -/
def sqlDate (s : String) : String :=
  ⟨s.toList.take 10⟩

/-- SQL comparison `date(col) >= ?` on a nullable timestamp column:
NULL never satisfies a comparison. -/
def sqlDateGe (col : Option String) (bound : String) : Bool :=
  match col with
  | none => false
  | some s => strLeB bound (sqlDate s)

/-- SQL comparison `date(col) <= ?` on a nullable timestamp column. -/
def sqlDateLe (col : Option String) (bound : String) : Bool :=
  match col with
  | none => false
  | some s => strLeB (sqlDate s) bound

/-- Python truthiness of an optional string parameter, governing both
filter validation and WHERE-clause composition. -/
def strTruthy : Option String → Bool
  | none => false
  | some s => !(s == "")

/-- Ordering by a string key, descending (SQL ORDER BY key DESC). -/
def descStr (ka kb : String) : Prop :=
  strLeB kb ka = true

/-- Ordering by a string key, ascending (SQL ORDER BY key ASC). -/
def ascStr (ka kb : String) : Prop :=
  strLeB ka kb = true

/-- Ordering by a nullable string key, descending; SQLite sorts NULL
lowest, so DESC places NULL rows last. -/
def descOptStr (ka kb : Option String) : Prop :=
  (match ka, kb with
   | none, none => true
   | none, some _ => false
   | some _, none => true
   | some a, some b => strLeB b a) = true

instance : DecidableRel (fun a b : TravelRow => descStr a.created_at b.created_at) :=
  fun _ _ => inferInstanceAs (Decidable (_ = true))

instance : DecidableRel (fun a b : TravelRow => descOptStr a.deleted_at b.deleted_at) :=
  fun _ _ => inferInstanceAs (Decidable (_ = true))

/-- Pagination metadata returned with every listing. -/
structure PaginationInfo where
  page : Nat
  limit : Nat
  total : Nat
  pages : Nat
deriving DecidableEq, Repr

/-- A page of results together with its pagination metadata. -/
structure Paged (α : Type) where
  data : List α
  pagination : PaginationInfo
deriving DecidableEq, Repr

/-- TravelResponse of routes/travels.py. -/
structure TravelResponse where
  id : Nat
  title : String
  description : Option String
  start_date : String
  end_date : String
  destination : Option String
  created_at : String
  updated_at : String
deriving DecidableEq, Repr

/-- DeletedTravelResponse of routes/travels.py. -/
structure DeletedTravelResponse where
  id : Nat
  title : String
  description : Option String
  start_date : String
  end_date : String
  destination : Option String
  is_deleted : Nat
  deleted_at : Option String
  created_at : String
deriving DecidableEq, Repr

/-- SingleTravelResponse of routes/travels.py (get-by-id shape). -/
structure SingleTravelResponse where
  id : Nat
  title : String
  description : Option String
  start_date : String
  end_date : String
  destination : Option String
  events_count : Nat
  created_at : String
  updated_at : String
deriving DecidableEq, Repr

def travelToResponse (r : TravelRow) : TravelResponse :=
  ⟨r.id, r.title, r.description, r.start_date, r.end_date, r.destination,
    r.created_at, r.updated_at⟩

def travelToDeletedResponse (r : TravelRow) : DeletedTravelResponse :=
  ⟨r.id, r.title, r.description, r.start_date, r.end_date, r.destination,
    r.is_deleted, r.deleted_at, r.created_at⟩

/-- The strptime format used by the valid date-filter checks. -/
def fmtYmd : String :=
  "%Y-%m-%d"

/-- The misspelt strptime format that routes/travels.py line 358 applies
to the deleted_date_to filter. -/
def fmtYmdTypo : String :=
  "%Y-MM-DD"

/-- WHERE predicate composed by list_travels: is_deleted = 0 plus the
caller-supplied LIKE and date-range filters. -/
def travelListPred (title destination sdf sdt edf edt : Option String) (r : TravelRow) : Bool :=
  r.is_deleted == 0 &&
  (!strTruthy title || likeSub (title.getD "") (some r.title)) &&
  (!strTruthy destination || likeSub (destination.getD "") r.destination) &&
  (!strTruthy sdf || strLeB (sdf.getD "") r.start_date) &&
  (!strTruthy sdt || strLeB r.start_date (sdt.getD "")) &&
  (!strTruthy edf || strLeB (edf.getD "") r.end_date) &&
  (!strTruthy edt || strLeB r.end_date (edt.getD ""))

/-- The rows list_travels ranges over: matching rows ordered by
created_at descending. -/
def travelsMatching (db : DB) (title destination sdf sdt edf edt : Option String) : List TravelRow :=
  List.insertionSort (fun a b => descStr a.created_at b.created_at)
    (db.travels.filter (travelListPred title destination sdf sdt edf edt))

/-- GET /travels (list_travels in routes/travels.py): date-filter format
validation, conjunctive WHERE, count query, pagination arithmetic and
the LIMIT/OFFSET page. -/
def listTravels (db : DB) (limit offset : Nat)
    (title destination sdf sdt edf edt : Option String) :
    Except ApiError (Paged TravelResponse) :=
  if strTruthy sdf && (strptimeDate fmtYmd (sdf.getD "")).isNone then
    Except.error (ApiError.badRequest ("Invalid start_date_from format. Use YYYY-MM-DD"))
  else if strTruthy sdt && (strptimeDate fmtYmd (sdt.getD "")).isNone then
    Except.error (ApiError.badRequest ("Invalid start_date_to format. Use YYYY-MM-DD"))
  else if strTruthy edf && (strptimeDate fmtYmd (edf.getD "")).isNone then
    Except.error (ApiError.badRequest ("Invalid end_date_from format. Use YYYY-MM-DD"))
  else if strTruthy edt && (strptimeDate fmtYmd (edt.getD "")).isNone then
    Except.error (ApiError.badRequest ("Invalid end_date_to format. Use YYYY-MM-DD"))
  else
    let total := (db.travels.filter (travelListPred title destination sdf sdt edf edt)).length
    let page := offset / limit + 1
    let pages := (total + limit - 1) / limit
    let rows := ((travelsMatching db title destination sdf sdt edf edt).drop offset).take limit
    Except.ok ⟨rows.map travelToResponse, ⟨page, limit, total, pages⟩⟩

/-- WHERE predicate composed by list_deleted_travels. -/
def deletedTravelListPred (title destination ddf ddt : Option String) (r : TravelRow) : Bool :=
  r.is_deleted == 1 &&
  (!strTruthy title || likeSub (title.getD "") (some r.title)) &&
  (!strTruthy destination || likeSub (destination.getD "") r.destination) &&
  (!strTruthy ddf || sqlDateGe r.deleted_at (ddf.getD "")) &&
  (!strTruthy ddt || sqlDateLe r.deleted_at (ddt.getD ""))

/-- The rows list_deleted_travels ranges over: deleted rows ordered by
deleted_at descending. -/
def deletedTravelsMatching (db : DB) (title destination ddf ddt : Option String) : List TravelRow :=
  List.insertionSort (fun a b => descOptStr a.deleted_at b.deleted_at)
    (db.travels.filter (deletedTravelListPred title destination ddf ddt))

/-- GET /travels/deleted (list_deleted_travels in routes/travels.py).
The deleted_date_to filter is checked against the misspelt format
string, exactly as at line 358 of the source. -/
def listDeletedTravels (db : DB) (limit offset : Nat)
    (title destination ddf ddt : Option String) :
    Except ApiError (Paged DeletedTravelResponse) :=
  if strTruthy ddf && (strptimeDate fmtYmd (ddf.getD "")).isNone then
    Except.error (ApiError.badRequest ("Invalid deleted_date_from format. Use YYYY-MM-DD"))
  else if strTruthy ddt && (strptimeDate fmtYmdTypo (ddt.getD "")).isNone then
    Except.error (ApiError.badRequest ("Invalid deleted_date_to format. Use YYYY-MM-DD"))
  else
    let total := (db.travels.filter (deletedTravelListPred title destination ddf ddt)).length
    let page := offset / limit + 1
    let pages := (total + limit - 1) / limit
    let rows := ((deletedTravelsMatching db title destination ddf ddt).drop offset).take limit
    Except.ok ⟨rows.map travelToDeletedResponse, ⟨page, limit, total, pages⟩⟩

/-- GET /travels/:id (get_travel in routes/travels.py): positivity
check, NotFound/Gone visibility check and the active-events count. -/
def getTravel (db : DB) (travel_id : Nat) : Except ApiError SingleTravelResponse :=
  if travel_id = 0 then
    Except.error (ApiError.badRequest ("Travel ID must be a positive integer"))
  else
    match db.travels.find? (fun r => r.id == travel_id) with
    | none =>
      Except.error (ApiError.notFound ("Travel with ID " ++ natToStr travel_id ++ " not found"))
    | some r =>
      if r.is_deleted == 1 then
        Except.error (ApiError.gone ("Travel with ID " ++ natToStr travel_id ++ " has been deleted"))
      else
        let events_count := (db.events.filter (fun e => e.travel_id == travel_id && e.is_deleted == 0)).length
        Except.ok ⟨r.id, r.title, r.description, r.start_date, r.end_date, r.destination,
          events_count, r.created_at, r.updated_at⟩

/-- CreateTravelRequest of routes/travels.py. -/
structure CreateTravelRequest where
  title : String
  description : Option String
  start_date : String
  end_date : String
  destination : Option String
deriving DecidableEq, Repr

/-- POST /travels (create_travel in routes/travels.py). today is the
value of date.today() and now the timestamp written by the insert. -/
def createTravel (db : DB) (today : PyDate) (now : String) (req : CreateTravelRequest) :
    Except ApiError TravelResponse × DB :=
  match strptimeDate fmtYmd req.start_date, strptimeDate fmtYmd req.end_date with
  | none, _ =>
    (Except.error (ApiError.badRequest ("Invalid date format. Use YYYY-MM-DD format")), db)
  | some _, none =>
    (Except.error (ApiError.badRequest ("Invalid date format. Use YYYY-MM-DD format")), db)
  | some start_date, some end_date =>
    if !PyDate.ltb start_date end_date then
      (Except.error (ApiError.badRequest ("start_date must be before end_date")), db)
    else if PyDate.ltb start_date today then
      (Except.error (ApiError.badRequest ("start_date cannot be in the past")), db)
    else
      let sanitized_title := if req.title == "" then "" else sanitizeInput req.title
      let sanitized_description :=
        match req.description with
        | some d => if d == "" then none else some (sanitizeInput d)
        | none => none
      let sanitized_destination :=
        match req.destination with
        | some d => if d == "" then none else some (sanitizeInput d)
        | none => none
      if sanitized_title == "" then
        (Except.error (ApiError.badRequest ("Title cannot be empty after sanitization")), db)
      else
        let new_id := nextId (db.travels.map (fun r => r.id))
        let row : TravelRow :=
          ⟨new_id, sanitized_title, sanitized_description, req.start_date, req.end_date,
            sanitized_destination, 0, none, now, now⟩
        let db1 : DB := ⟨db.travels ++ [row], db.events, db.event_types⟩
        match db1.travels.find? (fun r => r.id == new_id) with
        | none => (Except.error (ApiError.internal ("Failed to fetch created travel")), db1)
        | some r => (Except.ok (travelToResponse r), db1)

/-- DELETE /travels/:id (delete_travel in routes/travels.py): returns
the deletedAt timestamp on success. -/
def deleteTravel (db : DB) (now : String) (travel_id : Nat) :
    Except ApiError String × DB :=
  if travel_id = 0 then
    (Except.error (ApiError.badRequest ("Travel ID must be a positive integer")), db)
  else
    match db.travels.find? (fun r => r.id == travel_id) with
    | none =>
      (Except.error (ApiError.notFound ("Travel with ID " ++ natToStr travel_id ++ " not found")), db)
    | some r =>
      if r.is_deleted == 1 then
        (Except.error (ApiError.conflict ("Travel with ID " ++ natToStr travel_id ++ " is already deleted")), db)
      else
        let db1 : DB :=
          ⟨db.travels.map (fun x =>
              if x.id == travel_id then
                { x with is_deleted := 1, deleted_at := some now, updated_at := now }
              else x),
            db.events, db.event_types⟩
        let affected := (db.travels.filter (fun x => x.id == travel_id)).length
        if affected = 0 then
          (Except.error (ApiError.internal ("Failed to soft delete travel - no rows affected")), db1)
        else
          (Except.ok now, db1)

/-- POST /travels/:id/restore (restore_travel in routes/travels.py). -/
def restoreTravel (db : DB) (now : String) (travel_id : Nat) :
    Except ApiError TravelResponse × DB :=
  if travel_id = 0 then
    (Except.error (ApiError.badRequest ("Travel ID must be a positive integer")), db)
  else
    match db.travels.find? (fun r => r.id == travel_id) with
    | none =>
      (Except.error (ApiError.notFound ("Travel with ID " ++ natToStr travel_id ++ " not found")), db)
    | some r =>
      if r.is_deleted == 0 then
        (Except.error (ApiError.conflict ("Travel with ID " ++ natToStr travel_id ++ " is not deleted")), db)
      else
        let db1 : DB :=
          ⟨db.travels.map (fun x =>
              if x.id == travel_id then
                { x with is_deleted := 0, deleted_at := none, updated_at := now }
              else x),
            db.events, db.event_types⟩
        let affected := (db.travels.filter (fun x => x.id == travel_id)).length
        if affected = 0 then
          (Except.error (ApiError.internal ("Failed to restore travel - no rows affected")), db1)
        else
          match db1.travels.find? (fun x => x.id == travel_id) with
          | none => (Except.error (ApiError.internal ("Failed to fetch restored travel")), db1)
          | some x => (Except.ok (travelToResponse x), db1)

/-- EventTypeResponse of routes/eventTypes.py. -/
structure EventTypeResponse where
  id : Nat
  name : String
  category : String
  color : String
  icon : Option String
  created_at : String
  updated_at : String
deriving DecidableEq, Repr

/-- DeletedEventTypeResponse of routes/eventTypes.py. -/
structure DeletedEventTypeResponse where
  id : Nat
  name : String
  category : String
  color : String
  icon : Option String
  is_deleted : Nat
  deleted_at : Option String
  created_at : String
deriving DecidableEq, Repr

/-- SingleEventTypeResponse of routes/eventTypes.py. -/
structure SingleEventTypeResponse where
  id : Nat
  name : String
  category : String
  color : String
  icon : Option String
  usage_count : Nat
  created_at : String
  updated_at : String
deriving DecidableEq, Repr

def eventTypeToResponse (r : EventTypeRow) : EventTypeResponse :=
  ⟨r.id, r.name, r.category, r.color, r.icon, r.created_at, r.updated_at⟩

def eventTypeToDeletedResponse (r : EventTypeRow) : DeletedEventTypeResponse :=
  ⟨r.id, r.name, r.category, r.color, r.icon, r.is_deleted, r.deleted_at, r.created_at⟩

/-- ALLOWED_CATEGORIES of routes/eventTypes.py. -/
def allowedCategories : List String :=
  ["accommodation", "transportation", "activity", "food", "shopping",
   "entertainment", "health", "business", "education", "other"]

def isHexDigitCh (c : Char) : Bool :=
  (48 ≤ c.toNat && c.toNat ≤ 57) || (65 ≤ c.toNat && c.toNat ≤ 70) ||
    (97 ≤ c.toNat && c.toNat ≤ 102)

/-- validate_hex_color of routes/eventTypes.py: a hash sign followed by
exactly six hex digits. -/
def validateHexColor (color : String) : Bool :=
  match color.toList with
  | '#' :: rest => rest.length == 6 && rest.all isHexDigitCh
  | _ => false

/-- validate_category of routes/eventTypes.py: case-insensitive
membership in the allowed set. -/
def validateCategory (category : String) : Bool :=
  (allowedCategories.map strLower).contains (strLower category)

/-- validate_icon of routes/eventTypes.py. -/
def validateIcon : Option String → Bool
  | none => true
  | some icon =>
    icon.toList.length ≤ 10 &&
      !(⟨(icon.toList.dropWhile isPySpace).reverse.dropWhile isPySpace |>.reverse⟩ : String) == ""

/-- The duplicate-name query of create_event_type: first non-deleted row
whose lowercased name and category both match. -/
def eventTypeDuplicate (db : DB) (name category : String) : Option EventTypeRow :=
  db.event_types.find? (fun r =>
    strLower r.name == strLower name && strLower r.category == strLower category &&
      r.is_deleted == 0)

/-- CreateEventTypeRequest of routes/eventTypes.py. -/
structure CreateEventTypeRequest where
  name : String
  category : String
  color : String
  icon : Option String
deriving DecidableEq, Repr

/-- POST /event-types (create_event_type in routes/eventTypes.py). -/
def createEventType (db : DB) (now : String) (req : CreateEventTypeRequest) :
    Except ApiError EventTypeResponse × DB :=
  if !validateHexColor req.color then
    (Except.error (ApiError.badRequest ("Invalid color format. Use hex color format (#RRGGBB)")), db)
  else if !validateCategory req.category then
    (Except.error (ApiError.badRequest ("Invalid category")), db)
  else if strTruthy req.icon && !validateIcon req.icon then
    (Except.error (ApiError.badRequest ("Invalid icon format. Use emoji or single character (max 10 chars)")), db)
  else
    let sanitized_name := if req.name == "" then "" else sanitizeInput req.name
    let sanitized_category := if req.category == "" then "" else sanitizeInput req.category
    let sanitized_icon :=
      match req.icon with
      | some i => if i == "" then none else some (sanitizeInput i)
      | none => none
    if sanitized_name == "" then
      (Except.error (ApiError.badRequest ("Name cannot be empty after sanitization")), db)
    else if sanitized_category == "" then
      (Except.error (ApiError.badRequest ("Category cannot be empty after sanitization")), db)
    else
      match eventTypeDuplicate db sanitized_name sanitized_category with
      | some _ =>
        (Except.error (ApiError.conflict ("Event type with name " ++ sq ++ sanitized_name ++ sq ++
          " already exists in category " ++ sq ++ sanitized_category ++ sq)), db)
      | none =>
        let new_id := nextId (db.event_types.map (fun r => r.id))
        let row : EventTypeRow :=
          ⟨new_id, sanitized_name, strLower sanitized_category, req.color, sanitized_icon,
            0, none, now, now⟩
        let db1 : DB := ⟨db.travels, db.events, db.event_types ++ [row]⟩
        match db1.event_types.find? (fun r => r.id == new_id) with
        | none => (Except.error (ApiError.internal ("Failed to fetch created event type")), db1)
        | some r => (Except.ok (eventTypeToResponse r), db1)

/-- GET /event-types/:id (get_event_type in routes/eventTypes.py). -/
def getEventType (db : DB) (event_type_id : Nat) : Except ApiError SingleEventTypeResponse :=
  if event_type_id = 0 then
    Except.error (ApiError.badRequest ("Event type ID must be a positive integer"))
  else
    match db.event_types.find? (fun r => r.id == event_type_id) with
    | none =>
      Except.error (ApiError.notFound ("Event type with ID " ++ natToStr event_type_id ++ " not found"))
    | some r =>
      if r.is_deleted == 1 then
        Except.error (ApiError.gone ("Event type with ID " ++ natToStr event_type_id ++ " has been deleted"))
      else
        let usage_count := (db.events.filter (fun e => e.event_type_id == event_type_id && e.is_deleted == 0)).length
        Except.ok ⟨r.id, r.name, r.category, r.color, r.icon, usage_count, r.created_at, r.updated_at⟩

/-- UpdateEventTypeRequest of routes/eventTypes.py (all fields
optional). -/
structure UpdateEventTypeRequest where
  name : Option String
  category : Option String
  color : Option String
  icon : Option String
deriving DecidableEq, Repr

/-- The duplicate-name re-check of update_event_type: like the create
check but excluding the row being updated. -/
def eventTypeDuplicateExcept (db : DB) (name category : String) (event_type_id : Nat) :
    Option EventTypeRow :=
  db.event_types.find? (fun r =>
    strLower r.name == strLower name && strLower r.category == strLower category &&
      r.is_deleted == 0 && !(r.id == event_type_id))

/-- PUT /event-types/:id (update_event_type in routes/eventTypes.py). -/
def updateEventType (db : DB) (now : String) (event_type_id : Nat)
    (req : UpdateEventTypeRequest) : Except ApiError EventTypeResponse × DB :=
  if event_type_id = 0 then
    (Except.error (ApiError.badRequest ("Event type ID must be a positive integer")), db)
  else
    match db.event_types.find? (fun r => r.id == event_type_id) with
    | none =>
      (Except.error (ApiError.notFound ("Event type with ID " ++ natToStr event_type_id ++ " not found")), db)
    | some existing =>
      if existing.is_deleted == 1 then
        (Except.error (ApiError.gone ("Event type with ID " ++ natToStr event_type_id ++ " has been deleted")), db)
      else
        let sanitized_name := req.name.map sanitizeInput
        let sanitized_category := req.category.map sanitizeInput
        let sanitized_icon := req.icon.map sanitizeInput
        if sanitized_name.isSome && sanitized_name.getD "" == "" then
          (Except.error (ApiError.badRequest ("Name cannot be empty after sanitization")), db)
        else if sanitized_category.isSome && sanitized_category.getD "" == "" then
          (Except.error (ApiError.badRequest ("Category cannot be empty after sanitization")), db)
        else if sanitized_category.isSome && !validateCategory (sanitized_category.getD "") then
          (Except.error (ApiError.badRequest ("Invalid category")), db)
        else if req.color.isSome && !validateHexColor (req.color.getD "") then
          (Except.error (ApiError.badRequest ("Invalid color format. Use hex color format (#RRGGBB)")), db)
        else if sanitized_icon.isSome && !validateIcon sanitized_icon then
          (Except.error (ApiError.badRequest ("Invalid icon format. Use emoji or single character (max 10 chars)")), db)
        else if req.name.isNone && req.category.isNone && req.color.isNone && req.icon.isNone then
          (Except.error (ApiError.badRequest ("No valid fields provided for update")), db)
        else
          let dupCheck := req.name.isSome || req.category.isSome
          let effective_name := if strTruthy req.name then req.name.getD "" else existing.name
          let effective_category := if strTruthy req.category then req.category.getD "" else existing.category
          match (if dupCheck then eventTypeDuplicateExcept db effective_name effective_category event_type_id
                 else none) with
          | some _ =>
            (Except.error (ApiError.conflict ("Event type with name " ++ sq ++ effective_name ++ sq ++
              " already exists in category " ++ sq ++ effective_category ++ sq)), db)
          | none =>
            let apply := fun (x : EventTypeRow) =>
              let x1 := match sanitized_name with | some n => { x with name := n } | none => x
              let x2 := match sanitized_category with
                        | some c => { x1 with category := strLower c } | none => x1
              let x3 := match req.color with | some c => { x2 with color := c } | none => x2
              let x4 := match sanitized_icon with | some i => { x3 with icon := some i } | none => x3
              { x4 with updated_at := now }
            let db1 : DB :=
              ⟨db.travels, db.events,
                db.event_types.map (fun x => if x.id == event_type_id then apply x else x)⟩
            let affected := (db.event_types.filter (fun x => x.id == event_type_id)).length
            if affected = 0 then
              (Except.error (ApiError.internal ("Failed to update event type - no rows affected")), db1)
            else
              match db1.event_types.find? (fun x => x.id == event_type_id) with
              | none => (Except.error (ApiError.internal ("Failed to fetch updated event type")), db1)
              | some x => (Except.ok (eventTypeToResponse x), db1)

/-- Count of non-deleted events referencing an event type (the
dependency guard query of delete_event_type). -/
def eventTypeUsageCount (db : DB) (event_type_id : Nat) : Nat :=
  (db.events.filter (fun e => e.event_type_id == event_type_id && e.is_deleted == 0)).length

/-- DELETE /event-types/:id (delete_event_type in routes/eventTypes.py):
the dependency guard reports the active-reference count in the error
detail. -/
def deleteEventType (db : DB) (now : String) (event_type_id : Nat) :
    Except ApiError String × DB :=
  if event_type_id = 0 then
    (Except.error (ApiError.badRequest ("Event type ID must be a positive integer")), db)
  else
    match db.event_types.find? (fun r => r.id == event_type_id) with
    | none =>
      (Except.error (ApiError.notFound ("Event type with ID " ++ natToStr event_type_id ++ " not found")), db)
    | some r =>
      if r.is_deleted == 1 then
        (Except.error (ApiError.conflict ("Event type with ID " ++ natToStr event_type_id ++ " is already deleted")), db)
      else
        let usage_count := eventTypeUsageCount db event_type_id
        if 0 < usage_count then
          (Except.error (ApiError.conflict ("Cannot delete event type " ++ sq ++ r.name ++ sq ++
            " - it is used by " ++ natToStr usage_count ++ " active events")), db)
        else
          let db1 : DB :=
            ⟨db.travels, db.events,
              db.event_types.map (fun x =>
                if x.id == event_type_id then
                  { x with is_deleted := 1, deleted_at := some now, updated_at := now }
                else x)⟩
          let affected := (db.event_types.filter (fun x => x.id == event_type_id)).length
          if affected = 0 then
            (Except.error (ApiError.internal ("Failed to soft delete event type - no rows affected")), db1)
          else
            (Except.ok now, db1)

/-- POST /event-types/:id/restore (restore_event_type in
routes/eventTypes.py). -/
def restoreEventType (db : DB) (now : String) (event_type_id : Nat) :
    Except ApiError EventTypeResponse × DB :=
  if event_type_id = 0 then
    (Except.error (ApiError.badRequest ("Event type ID must be a positive integer")), db)
  else
    match db.event_types.find? (fun r => r.id == event_type_id) with
    | none =>
      (Except.error (ApiError.notFound ("Event type with ID " ++ natToStr event_type_id ++ " not found")), db)
    | some r =>
      if r.is_deleted == 0 then
        (Except.error (ApiError.conflict ("Event type with ID " ++ natToStr event_type_id ++ " is not deleted")), db)
      else
        let db1 : DB :=
          ⟨db.travels, db.events,
            db.event_types.map (fun x =>
              if x.id == event_type_id then
                { x with is_deleted := 0, deleted_at := none, updated_at := now }
              else x)⟩
        let affected := (db.event_types.filter (fun x => x.id == event_type_id)).length
        if affected = 0 then
          (Except.error (ApiError.internal ("Failed to restore event type - no rows affected")), db1)
        else
          match db1.event_types.find? (fun x => x.id == event_type_id) with
          | none => (Except.error (ApiError.internal ("Failed to fetch restored event type")), db1)
          | some x => (Except.ok (eventTypeToResponse x), db1)

/-- Ordering of list_event_types: category ascending then name
ascending. -/
def eventTypeSortRel (a b : EventTypeRow) : Prop :=
  (strLeB a.category b.category &&
    (!(a.category == b.category) || strLeB a.name b.name)) = true

instance : DecidableRel eventTypeSortRel :=
  fun _ _ => inferInstanceAs (Decidable (_ = true))

instance : DecidableRel (fun a b : EventTypeRow => descOptStr a.deleted_at b.deleted_at) :=
  fun _ _ => inferInstanceAs (Decidable (_ = true))

/-- WHERE predicate composed by list_event_types. -/
def eventTypeListPred (category : Option String) (r : EventTypeRow) : Bool :=
  r.is_deleted == 0 &&
  (!strTruthy category || strLower r.category == strLower (category.getD ""))

/-- The rows list_event_types ranges over. -/
def eventTypesMatching (db : DB) (category : Option String) : List EventTypeRow :=
  List.insertionSort eventTypeSortRel (db.event_types.filter (eventTypeListPred category))

/-- GET /event-types (list_event_types in routes/eventTypes.py). -/
def listEventTypes (db : DB) (limit offset : Nat) (category : Option String) :
    Except ApiError (Paged EventTypeResponse) :=
  if strTruthy category && !validateCategory (category.getD "") then
    Except.error (ApiError.badRequest ("Invalid category"))
  else
    let total := (db.event_types.filter (eventTypeListPred category)).length
    let page := offset / limit + 1
    let pages := (total + limit - 1) / limit
    let rows := ((eventTypesMatching db category).drop offset).take limit
    Except.ok ⟨rows.map eventTypeToResponse, ⟨page, limit, total, pages⟩⟩

/-- The rows list_deleted_event_types ranges over. -/
def deletedEventTypesMatching (db : DB) : List EventTypeRow :=
  List.insertionSort (fun a b => descOptStr a.deleted_at b.deleted_at)
    (db.event_types.filter (fun r => r.is_deleted == 1))

/-- GET /event-types/deleted (list_deleted_event_types in
routes/eventTypes.py). -/
def listDeletedEventTypes (db : DB) (limit offset : Nat) :
    Except ApiError (Paged DeletedEventTypeResponse) :=
  let total := (db.event_types.filter (fun r => r.is_deleted == 1)).length
  let page := offset / limit + 1
  let pages := (total + limit - 1) / limit
  let rows := ((deletedEventTypesMatching db).drop offset).take limit
  Except.ok ⟨rows.map eventTypeToDeletedResponse, ⟨page, limit, total, pages⟩⟩

/-- EventResponse of routes/events.py: the event joined with its event
type's display fields (LEFT JOIN on id only). -/
structure EventResponse where
  id : Nat
  travel_id : Nat
  title : String
  description : Option String
  event_type_id : Nat
  event_type_name : Option String
  event_type_color : Option String
  event_type_icon : Option String
  start_datetime : String
  end_datetime : String
  location : Option String
  created_at : String
  updated_at : String
deriving DecidableEq, Repr

/-- DeletedEventResponse of routes/events.py. -/
structure DeletedEventResponse where
  id : Nat
  travel_id : Nat
  title : String
  description : Option String
  event_type_id : Nat
  event_type_name : Option String
  event_type_color : Option String
  event_type_icon : Option String
  start_datetime : String
  end_datetime : String
  location : Option String
  is_deleted : Nat
  deleted_at : Option String
  created_at : String
deriving DecidableEq, Repr

/-- The LEFT JOIN of the event queries: lookup of event_types by id
alone, with no visibility filter. -/
def joinEventType (db : DB) (e : EventRow) : Option EventTypeRow :=
  db.event_types.find? (fun et => et.id == e.event_type_id)

def eventToResponse (db : DB) (e : EventRow) : EventResponse :=
  let et := joinEventType db e
  ⟨e.id, e.travel_id, e.title, e.description, e.event_type_id,
    et.map (fun x => x.name), et.map (fun x => x.color), et.bind (fun x => x.icon),
    e.start_datetime, e.end_datetime, e.location, e.created_at, e.updated_at⟩

def eventToDeletedResponse (db : DB) (e : EventRow) : DeletedEventResponse :=
  let et := joinEventType db e
  ⟨e.id, e.travel_id, e.title, e.description, e.event_type_id,
    et.map (fun x => x.name), et.map (fun x => x.color), et.bind (fun x => x.icon),
    e.start_datetime, e.end_datetime, e.location, e.is_deleted, e.deleted_at, e.created_at⟩

instance : DecidableRel (fun a b : EventRow => ascStr a.start_datetime b.start_datetime) :=
  fun _ _ => inferInstanceAs (Decidable (_ = true))

instance : DecidableRel (fun a b : EventRow => descOptStr a.deleted_at b.deleted_at) :=
  fun _ _ => inferInstanceAs (Decidable (_ = true))

/-- Python truthiness of the optional integer event_type_id filter:
zero is falsy and composes no predicate. -/
def natTruthy : Option Nat → Bool
  | none => false
  | some n => !(n == 0)

/-- WHERE predicate composed by list_travel_events. -/
def travelEventListPred (travel_id : Nat) (sdf sdt : Option String) (etid : Option Nat)
    (location : Option String) (e : EventRow) : Bool :=
  e.travel_id == travel_id && e.is_deleted == 0 &&
  (!strTruthy sdf || strLeB (sdf.getD "") (sqlDate e.start_datetime)) &&
  (!strTruthy sdt || strLeB (sqlDate e.start_datetime) (sdt.getD "")) &&
  (!natTruthy etid || e.event_type_id == etid.getD 0) &&
  (!strTruthy location || likeSub (location.getD "") e.location)

/-- The rows list_travel_events ranges over: matching rows ordered by
start_datetime ascending. -/
def travelEventsMatching (db : DB) (travel_id : Nat) (sdf sdt : Option String)
    (etid : Option Nat) (location : Option String) : List EventRow :=
  List.insertionSort (fun a b => ascStr a.start_datetime b.start_datetime)
    (db.events.filter (travelEventListPred travel_id sdf sdt etid location))

/-- GET /travels/:id/events (list_travel_events in routes/events.py):
fails Gone when the travel itself is soft-deleted. -/
def listTravelEvents (db : DB) (travel_id : Nat) (limit offset : Nat)
    (sdf sdt : Option String) (etid : Option Nat) (location : Option String) :
    Except ApiError (Paged EventResponse) :=
  if travel_id = 0 then
    Except.error (ApiError.badRequest ("Travel ID must be a positive integer"))
  else
    match db.travels.find? (fun r => r.id == travel_id) with
    | none =>
      Except.error (ApiError.notFound ("Travel with ID " ++ natToStr travel_id ++ " not found"))
    | some t =>
      if t.is_deleted == 1 then
        Except.error (ApiError.gone ("Travel with ID " ++ natToStr travel_id ++ " has been deleted"))
      else if strTruthy sdf && (strptimeDate fmtYmd (sdf.getD "")).isNone then
        Except.error (ApiError.badRequest ("Invalid start_date_from format. Use YYYY-MM-DD"))
      else if strTruthy sdt && (strptimeDate fmtYmd (sdt.getD "")).isNone then
        Except.error (ApiError.badRequest ("Invalid start_date_to format. Use YYYY-MM-DD"))
      else
        let total := (db.events.filter (travelEventListPred travel_id sdf sdt etid location)).length
        let page := offset / limit + 1
        let pages := (total + limit - 1) / limit
        let rows := ((travelEventsMatching db travel_id sdf sdt etid location).drop offset).take limit
        Except.ok ⟨rows.map (eventToResponse db), ⟨page, limit, total, pages⟩⟩

/-- The rows list_travel_deleted_events ranges over. -/
def travelDeletedEventsMatching (db : DB) (travel_id : Nat) : List EventRow :=
  List.insertionSort (fun a b => descOptStr a.deleted_at b.deleted_at)
    (db.events.filter (fun e => e.travel_id == travel_id && e.is_deleted == 1))

/-- GET /travels/:id/events/deleted (list_travel_deleted_events in
routes/events.py): only requires the travel to exist; a soft-deleted
travel is accepted. -/
def listTravelDeletedEvents (db : DB) (travel_id : Nat) (limit offset : Nat) :
    Except ApiError (Paged DeletedEventResponse) :=
  if travel_id = 0 then
    Except.error (ApiError.badRequest ("Travel ID must be a positive integer"))
  else
    match db.travels.find? (fun r => r.id == travel_id) with
    | none =>
      Except.error (ApiError.notFound ("Travel with ID " ++ natToStr travel_id ++ " not found"))
    | some _ =>
      let total := (db.events.filter (fun e => e.travel_id == travel_id && e.is_deleted == 1)).length
      let page := offset / limit + 1
      let pages := (total + limit - 1) / limit
      let rows := ((travelDeletedEventsMatching db travel_id).drop offset).take limit
      Except.ok ⟨rows.map (eventToDeletedResponse db), ⟨page, limit, total, pages⟩⟩

/-- CreateEventRequest of routes/events.py. -/
structure CreateEventRequest where
  title : String
  description : Option String
  event_type_id : Nat
  start_datetime : String
  end_datetime : String
  location : Option String
deriving DecidableEq, Repr

/-- POST /travels/:id/events (create_travel_event in routes/events.py):
travel absence is NotFound, deleted travel is Gone, absent or deleted
event type is a 400 validation error; all checks precede the insert. -/
def createTravelEvent (db : DB) (now : String) (travel_id : Nat) (req : CreateEventRequest) :
    Except ApiError EventResponse × DB :=
  if travel_id = 0 then
    (Except.error (ApiError.badRequest ("Travel ID must be a positive integer")), db)
  else
    match db.travels.find? (fun r => r.id == travel_id) with
    | none =>
      (Except.error (ApiError.notFound ("Travel with ID " ++ natToStr travel_id ++ " not found")), db)
    | some t =>
      if t.is_deleted == 1 then
        (Except.error (ApiError.gone ("Travel with ID " ++ natToStr travel_id ++ " has been deleted")), db)
      else
        match db.event_types.find? (fun et => et.id == req.event_type_id && et.is_deleted == 0) with
        | none =>
          (Except.error (ApiError.badRequest ("Event type with ID " ++ natToStr req.event_type_id ++
            " not found or deleted")), db)
        | some _ =>
          match fromIsoDateTime req.start_datetime, fromIsoDateTime req.end_datetime with
          | none, _ =>
            (Except.error (ApiError.badRequest ("Invalid datetime format. Use ISO format")), db)
          | some _, none =>
            (Except.error (ApiError.badRequest ("Invalid datetime format. Use ISO format")), db)
          | some sdt, some edt =>
            if !PyDateTime.ltb sdt edt then
              (Except.error (ApiError.badRequest ("start_datetime must be before end_datetime")), db)
            else
              let sanitized_title := if req.title == "" then "" else sanitizeInput req.title
              let sanitized_description :=
                match req.description with
                | some d => if d == "" then none else some (sanitizeInput d)
                | none => none
              let sanitized_location :=
                match req.location with
                | some l => if l == "" then none else some (sanitizeInput l)
                | none => none
              if sanitized_title == "" then
                (Except.error (ApiError.badRequest ("Title cannot be empty after sanitization")), db)
              else
                let new_id := nextId (db.events.map (fun r => r.id))
                let row : EventRow :=
                  ⟨new_id, travel_id, sanitized_title, sanitized_description, req.event_type_id,
                    req.start_datetime, req.end_datetime, sanitized_location, 0, none, now, now⟩
                let db1 : DB := ⟨db.travels, db.events ++ [row], db.event_types⟩
                match db1.events.find? (fun r => r.id == new_id) with
                | none => (Except.error (ApiError.internal ("Failed to fetch created event")), db1)
                | some r => (Except.ok (eventToResponse db1 r), db1)

/-- GET /events/:id (get_event in routes/events.py): the joined event
type fields are returned whatever that type's is_deleted flag. -/
def getEvent (db : DB) (event_id : Nat) : Except ApiError EventResponse :=
  if event_id = 0 then
    Except.error (ApiError.badRequest ("Event ID must be a positive integer"))
  else
    match db.events.find? (fun r => r.id == event_id) with
    | none =>
      Except.error (ApiError.notFound ("Event with ID " ++ natToStr event_id ++ " not found"))
    | some e =>
      if e.is_deleted == 1 then
        Except.error (ApiError.gone ("Event with ID " ++ natToStr event_id ++ " has been deleted"))
      else
        Except.ok (eventToResponse db e)

/-- DELETE /events/:id (delete_event in routes/events.py). -/
def deleteEvent (db : DB) (now : String) (event_id : Nat) :
    Except ApiError String × DB :=
  if event_id = 0 then
    (Except.error (ApiError.badRequest ("Event ID must be a positive integer")), db)
  else
    match db.events.find? (fun r => r.id == event_id) with
    | none =>
      (Except.error (ApiError.notFound ("Event with ID " ++ natToStr event_id ++ " not found")), db)
    | some r =>
      if r.is_deleted == 1 then
        (Except.error (ApiError.conflict ("Event with ID " ++ natToStr event_id ++ " is already deleted")), db)
      else
        let db1 : DB :=
          ⟨db.travels,
            db.events.map (fun x =>
              if x.id == event_id then
                { x with is_deleted := 1, deleted_at := some now, updated_at := now }
              else x),
            db.event_types⟩
        let affected := (db.events.filter (fun x => x.id == event_id)).length
        if affected = 0 then
          (Except.error (ApiError.internal ("Failed to soft delete event - no rows affected")), db1)
        else
          (Except.ok now, db1)

/-- POST /events/:id/restore (restore_event in routes/events.py). -/
def restoreEvent (db : DB) (now : String) (event_id : Nat) :
    Except ApiError EventResponse × DB :=
  if event_id = 0 then
    (Except.error (ApiError.badRequest ("Event ID must be a positive integer")), db)
  else
    match db.events.find? (fun r => r.id == event_id) with
    | none =>
      (Except.error (ApiError.notFound ("Event with ID " ++ natToStr event_id ++ " not found")), db)
    | some r =>
      if r.is_deleted == 0 then
        (Except.error (ApiError.conflict ("Event with ID " ++ natToStr event_id ++ " is not deleted")), db)
      else
        let db1 : DB :=
          ⟨db.travels,
            db.events.map (fun x =>
              if x.id == event_id then
                { x with is_deleted := 0, deleted_at := none, updated_at := now }
              else x),
            db.event_types⟩
        let affected := (db.events.filter (fun x => x.id == event_id)).length
        if affected = 0 then
          (Except.error (ApiError.internal ("Failed to restore event - no rows affected")), db1)
        else
          match db1.events.find? (fun x => x.id == event_id) with
          | none => (Except.error (ApiError.internal ("Failed to fetch restored event")), db1)
          | some x => (Except.ok (eventToResponse db1 x), db1)

/-! Concrete fixture data used to instantiate the claim theorems. -/

/-- An active travel. -/
def trA : TravelRow :=
  ⟨1, "Japan Trip", none, "2025-06-01", "2025-06-10", some "Tokyo", 0, none,
    "2025-01-01T10:00:00", "2025-01-01T10:00:00"⟩

/-- A soft-deleted travel. -/
def trB : TravelRow :=
  ⟨2, "Old Trip", some "past", "2024-01-01", "2024-01-05", none, 1,
    some "2025-02-01T09:00:00", "2024-01-01T08:00:00", "2025-02-01T09:00:00"⟩

/-- An active event type. -/
def etA : EventTypeRow :=
  ⟨1, "Flight", "transportation", "#FF0000", some "F", 0, none,
    "2025-01-01T00:00:00", "2025-01-01T00:00:00"⟩

/-- A soft-deleted event type. -/
def etB : EventTypeRow :=
  ⟨2, "Hotel", "accommodation", "#00FF00", none, 1, some "2025-03-01T00:00:00",
    "2025-01-02T00:00:00", "2025-03-01T00:00:00"⟩

/-- An active event type no event references. -/
def etC : EventTypeRow :=
  ⟨3, "Bus", "transportation", "#0000FF", none, 0, none,
    "2025-01-06T00:00:00", "2025-01-06T00:00:00"⟩

/-- An active event of travel 1 referencing event type 1. -/
def evA : EventRow :=
  ⟨1, 1, "Fly out", none, 1, "2025-06-01T09:00:00", "2025-06-01T12:00:00", some "NRT",
    0, none, "2025-01-03T00:00:00", "2025-01-03T00:00:00"⟩

/-- A soft-deleted event of travel 1. -/
def evB : EventRow :=
  ⟨2, 1, "Cancelled", none, 1, "2025-06-02T09:00:00", "2025-06-02T10:00:00", none,
    1, some "2025-04-01T00:00:00", "2025-01-04T00:00:00", "2025-04-01T00:00:00"⟩

/-- An active event of travel 1 referencing the soft-deleted event type 2. -/
def evC : EventRow :=
  ⟨3, 1, "Museum", none, 2, "2025-06-03T09:00:00", "2025-06-03T10:00:00", none,
    0, none, "2025-01-05T00:00:00", "2025-01-05T00:00:00"⟩

/-- The fixture store. -/
def dbW : DB :=
  ⟨[trA, trB], [evA, evB, evC], [etA, etB, etC]⟩

/-- The empty store. -/
def dbE : DB :=
  ⟨[], [], []⟩

/-! General lemmas about find?, key-preserving updates, page chunking
and ceiling division, shared by the claim theorems below. -/

theorem find?_key_eq {α : Type} (f : α → Nat) (k : Nat) :
    ∀ (l : List α), (l.map f).Nodup → ∀ r, r ∈ l → f r = k →
      l.find? (fun x => f x == k) = some r := by
  intro l
  induction l with
  | nil => intro _ r hr; cases hr
  | cons a t ih =>
    intro hnd r hr hk
    rw [List.map_cons, List.nodup_cons] at hnd
    rcases List.mem_cons.mp hr with hra | hrt
    · subst hra
      simp [List.find?, hk]
    · have hak : ¬(f a = k) := by
        intro hfa
        apply hnd.1
        rw [hfa, ← hk]
        exact List.mem_map_of_mem f hrt
      have : (f a == k) = false := by
        simp [hak]
      simp only [List.find?, this]
      exact ih hnd.2 r hrt hk

theorem find?_map_key {α : Type} (f : α → Nat) (g : α → α) (hg : ∀ x, f (g x) = f x) (k : Nat) :
    ∀ l : List α, (l.map g).find? (fun x => f x == k) = (l.find? (fun x => f x == k)).map g := by
  intro l
  induction l with
  | nil => rfl
  | cons a t ih =>
    by_cases h : f a = k
    · have h1 : (f (g a) == k) = true := by simp [hg, h]
      have h2 : (f a == k) = true := by simp [h]
      simp [List.find?, h1, h2]
    · have h1 : (f (g a) == k) = false := by simp [hg, h]
      have h2 : (f a == k) = false := by simp [h]
      simp only [List.map_cons, List.find?, h1, h2]
      exact ih

theorem length_pos_of_mem_filter {α : Type} (p : α → Bool) (l : List α) (r : α)
    (hr : r ∈ l) (hp : p r = true) : 0 < (l.filter p).length :=
  List.length_pos.mpr (fun hnil => by
    have := List.mem_filter.mpr ⟨hr, hp⟩
    rw [hnil] at this
    cases this)

theorem succ_pages_shift (n len : Nat) (hn : 0 < n) (p : Nat)
    (hp : p + 1 = (len + n - 1) / n) : p = (len - n + n - 1) / n := by
  have hlen : 1 ≤ len := by
    by_contra hcon
    have h0 : len = 0 := by omega
    subst h0
    rw [Nat.zero_add] at hp
    have hz : (n - 1) / n = 0 := Nat.div_eq_of_lt (by omega)
    rw [hz] at hp
    exact absurd hp (Nat.succ_ne_zero p)
  by_cases hcase : len ≤ n
  · have h1 : len - n = 0 := by omega
    rw [h1]
    have h2 : (len + n - 1) / n = 1 := by
      have e : len + n - 1 = (len - 1) + n := by omega
      rw [e, Nat.add_div_right _ hn]
      have hz : (len - 1) / n = 0 := Nat.div_eq_of_lt (by omega)
      rw [hz]
    have h3 : (0 + n - 1) / n = 0 := Nat.div_eq_of_lt (by omega)
    rw [h2] at hp
    rw [h3]
    omega
  · have hgt : n < len := by omega
    have e1 : len + n - 1 = (len - 1) + n := by omega
    have e2 : len - 1 = (len - n - 1) + n := by omega
    have e3 : len - n + n - 1 = (len - n - 1) + n := by omega
    rw [e1, Nat.add_div_right _ hn, e2, Nat.add_div_right _ hn] at hp
    rw [e3, Nat.add_div_right _ hn]
    generalize hq : (len - n - 1) / n = q at hp ⊢
    omega

theorem range_flatMap_chunks {α : Type} (n : Nat) (hn : 0 < n) :
    ∀ (fuel : Nat) (L : List α), L.length ≤ fuel →
      (List.range ((L.length + n - 1) / n)).flatMap (fun k => (L.drop (k * n)).take n) = L := by
  intro fuel
  induction fuel with
  | zero =>
    intro L hL
    have : L = [] := List.eq_nil_of_length_eq_zero (by omega)
    subst this
    simp
  | succ fuel ih =>
    intro L hL
    rcases hpages : (L.length + n - 1) / n with _ | p
    · have hlen : L.length = 0 := by
        by_contra hcon
        have h1 : 1 ≤ L.length := by omega
        have e : L.length + n - 1 = (L.length - 1) + n := by omega
        rw [e, Nat.add_div_right _ hn] at hpages
        exact absurd hpages (Nat.succ_ne_zero _)
      have : L = [] := List.eq_nil_of_length_eq_zero hlen
      subst this
      simp
    · rw [List.range_succ_eq_map]
      rw [List.flatMap_cons]
      have hfirst : (L.drop (0 * n)).take n = L.take n := by
        simp
      rw [hfirst]
      have hfun : (fun k => (L.drop (Nat.succ k * n)).take n)
          = (fun k => (((L.drop n).drop (k * n)).take n : List α)) := by
        funext k
        rw [Nat.succ_mul, List.drop_drop, Nat.add_comm]
      have hshift : ((List.range p).map Nat.succ).flatMap (fun k => (L.drop (k * n)).take n)
          = (List.range p).flatMap (fun k => ((L.drop n).drop (k * n)).take n) := by
        rw [List.flatMap_map]
        rw [hfun]
      rw [hshift]
      have harith : p = ((L.drop n).length + n - 1) / n := by
        rw [List.length_drop]
        exact succ_pages_shift n L.length hn p hpages.symm
      have hfuel : (L.drop n).length ≤ fuel := by
        rw [List.length_drop]
        omega
      rw [harith, ih (L.drop n) hfuel]
      exact List.take_append_drop n L

theorem ceil_div_ge (total n : Nat) (hn : 0 < n) : total ≤ ((total + n - 1) / n) * n := by
  rcases Nat.eq_zero_or_pos total with h0 | hpos
  · subst h0
    exact Nat.zero_le _
  · have e : total + n - 1 = (total - 1) + n := by omega
    rw [e, Nat.add_div_right _ hn, Nat.succ_mul]
    have h1 := Nat.div_add_mod (total - 1) n
    have h2 := Nat.mod_lt (total - 1) hn
    rw [Nat.mul_comm ((total - 1) / n) n]
    generalize hq : n * ((total - 1) / n) = q at h1 ⊢
    generalize hr : (total - 1) % n = r at h1 h2
    omega

theorem ceil_div_min (total n m : Nat) (hn : 0 < n) (hm : total ≤ m * n) :
    (total + n - 1) / n ≤ m := by
  rw [Nat.div_le_iff_le_mul_add_pred hn]
  rw [Nat.mul_comm] at hm
  generalize hp : n * m = p at hm ⊢
  omega

/-! Claim theorems. -/

/-- C7: the claim says every syntactically valid YYYY-MM-DD value of the
deleted_date_to filter passes validation; the code checks it against the
misspelt format string and therefore rejects every ordinary date. The
theorem evaluates the deleted-travels listing at the failing input
2025-01-15 (rejected for every store and page window) while the same
string satisfies the format used by deleted_date_from. -/
theorem deleted_date_to_rejects_valid_dates :
    (∀ (db : DB) (limit offset : Nat),
      listDeletedTravels db limit offset none none none (some "2025-01-15") =
        Except.error (ApiError.badRequest ("Invalid deleted_date_to format. Use YYYY-MM-DD")))
    ∧ (strptimeDate fmtYmd "2025-01-15").isSome = true
    ∧ strptimeDate fmtYmdTypo "2025-01-15" = none := by
  refine ⟨fun db limit offset => ?_, by decide, by decide⟩
  rfl

/-- C9: creating a travel whose start date parses, precedes its end
date, and is strictly before the current day fails with the 400
past-date validation error and leaves the store unchanged. -/
theorem create_travel_rejects_past_start (db : DB) (today : PyDate) (now : String)
    (req : CreateTravelRequest) (sd ed : PyDate)
    (hsd : strptimeDate fmtYmd req.start_date = some sd)
    (hed : strptimeDate fmtYmd req.end_date = some ed)
    (horder : PyDate.ltb sd ed = true)
    (hpast : PyDate.ltb sd today = true) :
    createTravel db today now req =
      (Except.error (ApiError.badRequest ("start_date cannot be in the past")), db) := by
  unfold createTravel
  rw [hsd, hed]
  simp [horder, hpast]

/-- C9 witness: the past-date rejection at a concrete request. -/
theorem create_travel_rejects_past_start_witness :
    strptimeDate fmtYmd "2025-06-01" = some ⟨2025, 6, 1⟩ ∧
    strptimeDate fmtYmd "2025-06-10" = some ⟨2025, 6, 10⟩ ∧
    PyDate.ltb ⟨2025, 6, 1⟩ ⟨2025, 6, 10⟩ = true ∧
    PyDate.ltb ⟨2025, 6, 1⟩ ⟨2026, 10, 12⟩ = true ∧
    createTravel dbE ⟨2026, 10, 12⟩ "2026-10-12T00:00:00"
        ⟨"Trip", none, "2025-06-01", "2025-06-10", none⟩ =
      (Except.error (ApiError.badRequest ("start_date cannot be in the past")), dbE) :=
  ⟨by decide, by decide, by decide, by decide,
    create_travel_rejects_past_start dbE ⟨2026, 10, 12⟩ "2026-10-12T00:00:00"
      ⟨"Trip", none, "2025-06-01", "2025-06-10", none⟩ ⟨2025, 6, 1⟩ ⟨2025, 6, 10⟩
      (by decide) (by decide) (by decide) (by decide)⟩

/-- C2 counterexample: soft-deleting then restoring travel 1 does not
leave all other fields unchanged — updated_at is stamped with the
restore time, so the restored row differs from the original. -/
theorem soft_delete_restore_claim_counterexample :
    (restoreTravel (deleteTravel (⟨[trA], [], []⟩ : DB) "2025-02-01T09:00:00" 1).2
        "2025-03-01T09:00:00" 1).2.travels
      = [{ trA with updated_at := "2025-03-01T09:00:00" }] ∧
    trA.updated_at ≠ "2025-03-01T09:00:00" := by
  decide

/-- C2 (amended): for each entity, SoftDelete(id) followed by
Restore(id) on a non-deleted row yields is_deleted = 0, deleted_at =
null, updated_at stamped with the restore time, and every field other
than updated_at (and the two cleared soft-delete columns) unchanged;
rows of the other tables are untouched. -/
theorem soft_delete_restore_roundtrip :
    (∀ (db : DB) (t1 t2 : String) (r : TravelRow),
      db.travels.find? (fun x => x.id == r.id) = some r →
      r.is_deleted = 0 → r.id ≠ 0 →
      (deleteTravel db t1 r.id).1 = Except.ok t1 ∧
      (restoreTravel (deleteTravel db t1 r.id).2 t2 r.id).1 =
        Except.ok (travelToResponse { r with is_deleted := 0, deleted_at := none, updated_at := t2 }) ∧
      (restoreTravel (deleteTravel db t1 r.id).2 t2 r.id).2.travels =
        db.travels.map (fun x => if x.id == r.id then
          { x with is_deleted := 0, deleted_at := none, updated_at := t2 } else x) ∧
      (restoreTravel (deleteTravel db t1 r.id).2 t2 r.id).2.events = db.events ∧
      (restoreTravel (deleteTravel db t1 r.id).2 t2 r.id).2.event_types = db.event_types)
    ∧
    (∀ (db : DB) (t1 t2 : String) (r : EventRow),
      db.events.find? (fun x => x.id == r.id) = some r →
      r.is_deleted = 0 → r.id ≠ 0 →
      (deleteEvent db t1 r.id).1 = Except.ok t1 ∧
      (restoreEvent (deleteEvent db t1 r.id).2 t2 r.id).1 =
        Except.ok (eventToResponse db { r with is_deleted := 0, deleted_at := none, updated_at := t2 }) ∧
      (restoreEvent (deleteEvent db t1 r.id).2 t2 r.id).2.events =
        db.events.map (fun x => if x.id == r.id then
          { x with is_deleted := 0, deleted_at := none, updated_at := t2 } else x) ∧
      (restoreEvent (deleteEvent db t1 r.id).2 t2 r.id).2.travels = db.travels ∧
      (restoreEvent (deleteEvent db t1 r.id).2 t2 r.id).2.event_types = db.event_types)
    ∧
    (∀ (db : DB) (t1 t2 : String) (r : EventTypeRow),
      db.event_types.find? (fun x => x.id == r.id) = some r →
      r.is_deleted = 0 → r.id ≠ 0 →
      eventTypeUsageCount db r.id = 0 →
      (deleteEventType db t1 r.id).1 = Except.ok t1 ∧
      (restoreEventType (deleteEventType db t1 r.id).2 t2 r.id).1 =
        Except.ok (eventTypeToResponse { r with is_deleted := 0, deleted_at := none, updated_at := t2 }) ∧
      (restoreEventType (deleteEventType db t1 r.id).2 t2 r.id).2.event_types =
        db.event_types.map (fun x => if x.id == r.id then
          { x with is_deleted := 0, deleted_at := none, updated_at := t2 } else x) ∧
      (restoreEventType (deleteEventType db t1 r.id).2 t2 r.id).2.travels = db.travels ∧
      (restoreEventType (deleteEventType db t1 r.id).2 t2 r.id).2.events = db.events) := by
  refine ⟨?_, ?_, ?_⟩
  · intro db t1 t2 r hfind hdel hid
    have hmem : r ∈ db.travels := List.mem_of_find?_eq_some hfind
    have hpos : 0 < (db.travels.filter (fun x => x.id == r.id)).length :=
      length_pos_of_mem_filter _ _ r hmem (by simp)
    have hdel1 : (r.is_deleted == 1) = false := by simp [hdel]
    set g := fun x : TravelRow => if x.id == r.id then
        { x with is_deleted := 1, deleted_at := some t1, updated_at := t1 } else x with hg
    have hDel : deleteTravel db t1 r.id =
        (Except.ok t1, ⟨db.travels.map g, db.events, db.event_types⟩) := by
      unfold deleteTravel
      rw [if_neg hid, hfind]
      simp only [hdel1, Bool.false_eq_true, if_false]
      rw [if_neg (by omega : ¬((db.travels.filter (fun x => x.id == r.id)).length = 0))]
    have hgid : ∀ x : TravelRow, ((g x).id) = x.id := by
      intro x
      by_cases h : x.id = r.id <;> simp [hg, h]
    have hfind1 : (db.travels.map g).find? (fun x => x.id == r.id) = some (g r) := by
      have h := find?_map_key (fun x : TravelRow => x.id) g hgid r.id db.travels
      rw [hfind] at h
      exact h
    have hgr : g r = { r with is_deleted := 1, deleted_at := some t1, updated_at := t1 } := by
      simp [hg]
    have hpos1 : 0 < ((db.travels.map g).filter (fun x => x.id == r.id)).length := by
      apply length_pos_of_mem_filter _ _ (g r) (List.mem_map_of_mem g hmem)
      simp [hgid r]
    set g2 := fun x : TravelRow => if x.id == r.id then
        { x with is_deleted := 0, deleted_at := none, updated_at := t2 } else x with hg2
    have hg2id : ∀ x : TravelRow, ((g2 x).id) = x.id := by
      intro x
      by_cases h : x.id = r.id <;> simp [hg2, h]
    have hfind2 : ((db.travels.map g).map g2).find? (fun x => x.id == r.id) = some (g2 (g r)) := by
      have h := find?_map_key (fun x : TravelRow => x.id) g2 hg2id r.id (db.travels.map g)
      rw [hfind1] at h
      exact h
    have hcomp : (db.travels.map g).map g2 = db.travels.map g2 := by
      rw [List.map_map]
      apply List.map_congr_left
      intro x _
      by_cases h : x.id = r.id <;> simp [hg, hg2, Function.comp, h]
    have hgr0 : ((g r).is_deleted == 0) = false := by
      rw [hgr]
      rfl
    have hRes : restoreTravel (deleteTravel db t1 r.id).2 t2 r.id =
        (Except.ok (travelToResponse (g2 (g r))),
          ⟨db.travels.map g2, db.events, db.event_types⟩) := by
      rw [hDel]
      unfold restoreTravel
      rw [if_neg hid]
      rw [hfind1]
      simp only [hgr0, Bool.false_eq_true, if_false]
      rw [if_neg (by omega : ¬(((db.travels.map g).filter (fun x => x.id == r.id)).length = 0))]
      rw [hfind2, hcomp]
    have hfinal : g2 (g r) = { r with is_deleted := 0, deleted_at := none, updated_at := t2 } := by
      rw [hgr]
      simp [hg2]
    rw [hRes, hDel, hfinal]
    exact ⟨rfl, rfl, rfl, rfl, rfl⟩
  · intro db t1 t2 r hfind hdel hid
    have hmem : r ∈ db.events := List.mem_of_find?_eq_some hfind
    have hpos : 0 < (db.events.filter (fun x => x.id == r.id)).length :=
      length_pos_of_mem_filter _ _ r hmem (by simp)
    have hdel1 : (r.is_deleted == 1) = false := by simp [hdel]
    set g := fun x : EventRow => if x.id == r.id then
        { x with is_deleted := 1, deleted_at := some t1, updated_at := t1 } else x with hg
    have hDel : deleteEvent db t1 r.id =
        (Except.ok t1, ⟨db.travels, db.events.map g, db.event_types⟩) := by
      unfold deleteEvent
      rw [if_neg hid, hfind]
      simp only [hdel1, Bool.false_eq_true, if_false]
      rw [if_neg (by omega : ¬((db.events.filter (fun x => x.id == r.id)).length = 0))]
    have hgid : ∀ x : EventRow, ((g x).id) = x.id := by
      intro x
      by_cases h : x.id = r.id <;> simp [hg, h]
    have hfind1 : (db.events.map g).find? (fun x => x.id == r.id) = some (g r) := by
      have h := find?_map_key (fun x : EventRow => x.id) g hgid r.id db.events
      rw [hfind] at h
      exact h
    have hgr : g r = { r with is_deleted := 1, deleted_at := some t1, updated_at := t1 } := by
      simp [hg]
    have hpos1 : 0 < ((db.events.map g).filter (fun x => x.id == r.id)).length := by
      apply length_pos_of_mem_filter _ _ (g r) (List.mem_map_of_mem g hmem)
      simp [hgid r]
    set g2 := fun x : EventRow => if x.id == r.id then
        { x with is_deleted := 0, deleted_at := none, updated_at := t2 } else x with hg2
    have hg2id : ∀ x : EventRow, ((g2 x).id) = x.id := by
      intro x
      by_cases h : x.id = r.id <;> simp [hg2, h]
    have hfind2 : ((db.events.map g).map g2).find? (fun x => x.id == r.id) = some (g2 (g r)) := by
      have h := find?_map_key (fun x : EventRow => x.id) g2 hg2id r.id (db.events.map g)
      rw [hfind1] at h
      exact h
    have hcomp : (db.events.map g).map g2 = db.events.map g2 := by
      rw [List.map_map]
      apply List.map_congr_left
      intro x _
      by_cases h : x.id = r.id <;> simp [hg, hg2, Function.comp, h]
    have hgr0 : ((g r).is_deleted == 0) = false := by
      rw [hgr]
      rfl
    have hRes : restoreEvent (deleteEvent db t1 r.id).2 t2 r.id =
        (Except.ok (eventToResponse ⟨db.travels, db.events.map g2, db.event_types⟩ (g2 (g r))),
          ⟨db.travels, db.events.map g2, db.event_types⟩) := by
      rw [hDel]
      unfold restoreEvent
      rw [if_neg hid]
      rw [hfind1]
      simp only [hgr0, Bool.false_eq_true, if_false]
      rw [if_neg (by omega : ¬(((db.events.map g).filter (fun x => x.id == r.id)).length = 0))]
      rw [hfind2, hcomp]
    have hfinal : g2 (g r) = { r with is_deleted := 0, deleted_at := none, updated_at := t2 } := by
      rw [hgr]
      simp [hg2]
    have hresp : eventToResponse ⟨db.travels, db.events.map g2, db.event_types⟩ (g2 (g r)) =
        eventToResponse db (g2 (g r)) := rfl
    rw [hRes, hDel, hresp, hfinal]
    exact ⟨rfl, rfl, rfl, rfl, rfl⟩
  · intro db t1 t2 r hfind hdel hid husage
    have hmem : r ∈ db.event_types := List.mem_of_find?_eq_some hfind
    have hpos : 0 < (db.event_types.filter (fun x => x.id == r.id)).length :=
      length_pos_of_mem_filter _ _ r hmem (by simp)
    have hdel1 : (r.is_deleted == 1) = false := by simp [hdel]
    set g := fun x : EventTypeRow => if x.id == r.id then
        { x with is_deleted := 1, deleted_at := some t1, updated_at := t1 } else x with hg
    have hDel : deleteEventType db t1 r.id =
        (Except.ok t1, ⟨db.travels, db.events, db.event_types.map g⟩) := by
      unfold deleteEventType
      rw [if_neg hid, hfind]
      simp only [hdel1, Bool.false_eq_true, if_false]
      rw [if_neg (by omega : ¬(0 < eventTypeUsageCount db r.id))]
      rw [if_neg (by omega : ¬((db.event_types.filter (fun x => x.id == r.id)).length = 0))]
    have hgid : ∀ x : EventTypeRow, ((g x).id) = x.id := by
      intro x
      by_cases h : x.id = r.id <;> simp [hg, h]
    have hfind1 : (db.event_types.map g).find? (fun x => x.id == r.id) = some (g r) := by
      have h := find?_map_key (fun x : EventTypeRow => x.id) g hgid r.id db.event_types
      rw [hfind] at h
      exact h
    have hgr : g r = { r with is_deleted := 1, deleted_at := some t1, updated_at := t1 } := by
      simp [hg]
    have hpos1 : 0 < ((db.event_types.map g).filter (fun x => x.id == r.id)).length := by
      apply length_pos_of_mem_filter _ _ (g r) (List.mem_map_of_mem g hmem)
      simp [hgid r]
    set g2 := fun x : EventTypeRow => if x.id == r.id then
        { x with is_deleted := 0, deleted_at := none, updated_at := t2 } else x with hg2
    have hg2id : ∀ x : EventTypeRow, ((g2 x).id) = x.id := by
      intro x
      by_cases h : x.id = r.id <;> simp [hg2, h]
    have hfind2 : ((db.event_types.map g).map g2).find? (fun x => x.id == r.id) = some (g2 (g r)) := by
      have h := find?_map_key (fun x : EventTypeRow => x.id) g2 hg2id r.id (db.event_types.map g)
      rw [hfind1] at h
      exact h
    have hcomp : (db.event_types.map g).map g2 = db.event_types.map g2 := by
      rw [List.map_map]
      apply List.map_congr_left
      intro x _
      by_cases h : x.id = r.id <;> simp [hg, hg2, Function.comp, h]
    have hgr0 : ((g r).is_deleted == 0) = false := by
      rw [hgr]
      rfl
    have hRes : restoreEventType (deleteEventType db t1 r.id).2 t2 r.id =
        (Except.ok (eventTypeToResponse (g2 (g r))),
          ⟨db.travels, db.events, db.event_types.map g2⟩) := by
      rw [hDel]
      unfold restoreEventType
      rw [if_neg hid]
      rw [hfind1]
      simp only [hgr0, Bool.false_eq_true, if_false]
      rw [if_neg (by omega : ¬(((db.event_types.map g).filter (fun x => x.id == r.id)).length = 0))]
      rw [hfind2, hcomp]
    have hfinal : g2 (g r) = { r with is_deleted := 0, deleted_at := none, updated_at := t2 } := by
      rw [hgr]
      simp [hg2]
    rw [hRes, hDel, hfinal]
    exact ⟨rfl, rfl, rfl, rfl, rfl⟩

/-- C2 witness: the round trip at concrete rows of the fixture store. -/
theorem soft_delete_restore_roundtrip_witness :
    ((deleteTravel dbW "2025-07-01T00:00:00" 1).1 = Except.ok "2025-07-01T00:00:00" ∧
      (restoreTravel (deleteTravel dbW "2025-07-01T00:00:00" 1).2 "2025-07-02T00:00:00" 1).1 =
        Except.ok (travelToResponse
          { trA with is_deleted := 0, deleted_at := none, updated_at := "2025-07-02T00:00:00" })) ∧
    ((restoreEvent (deleteEvent dbW "2025-07-01T00:00:00" 1).2 "2025-07-02T00:00:00" 1).1 =
      Except.ok (eventToResponse dbW
        { evA with is_deleted := 0, deleted_at := none, updated_at := "2025-07-02T00:00:00" })) ∧
    ((restoreEventType (deleteEventType dbW "2025-07-01T00:00:00" 3).2 "2025-07-02T00:00:00" 3).1 =
      Except.ok (eventTypeToResponse
        { etC with is_deleted := 0, deleted_at := none, updated_at := "2025-07-02T00:00:00" })) := by
  obtain ⟨hT, hE, hET⟩ := soft_delete_restore_roundtrip
  have h1 := hT dbW "2025-07-01T00:00:00" "2025-07-02T00:00:00" trA (by decide) (by decide) (by decide)
  have h2 := hE dbW "2025-07-01T00:00:00" "2025-07-02T00:00:00" evA (by decide) (by decide) (by decide)
  have h3 := hET dbW "2025-07-01T00:00:00" "2025-07-02T00:00:00" etC (by decide) (by decide) (by decide) (by decide)
  exact ⟨⟨h1.1, h1.2.1⟩, h2.2.1, h3.2.1⟩

/-- C4: deleting an event type referenced by at least one non-deleted
event fails Conflict with the active-reference count in the error
detail and changes nothing; once no non-deleted event references it,
the delete succeeds and stamps is_deleted, deleted_at and updated_at. -/
theorem event_type_delete_dependency_guard (db : DB) (now : String) (et : EventTypeRow)
    (hfind : db.event_types.find? (fun x => x.id == et.id) = some et)
    (hactive : et.is_deleted = 0) (hid : et.id ≠ 0) :
    (0 < eventTypeUsageCount db et.id →
      deleteEventType db now et.id =
        (Except.error (ApiError.conflict ("Cannot delete event type " ++ sq ++ et.name ++ sq ++
          " - it is used by " ++ natToStr (eventTypeUsageCount db et.id) ++ " active events")), db))
    ∧ ((∀ e ∈ db.events, e.event_type_id = et.id → e.is_deleted = 1) →
      deleteEventType db now et.id =
        (Except.ok now,
          ⟨db.travels, db.events, db.event_types.map (fun x => if x.id == et.id then
            { x with is_deleted := 1, deleted_at := some now, updated_at := now } else x)⟩)) := by
  have hmem : et ∈ db.event_types := List.mem_of_find?_eq_some hfind
  have hdel1 : (et.is_deleted == 1) = false := by simp [hactive]
  constructor
  · intro husage
    unfold deleteEventType
    rw [if_neg hid, hfind]
    simp only [hdel1, Bool.false_eq_true, if_false]
    rw [if_pos husage]
  · intro hquiet
    have h0 : eventTypeUsageCount db et.id = 0 := by
      unfold eventTypeUsageCount
      rw [List.length_eq_zero]
      rw [List.filter_eq_nil_iff]
      intro e he
      by_cases h : e.event_type_id = et.id
      · have := hquiet e he h
        simp [h, this]
      · simp [h]
    have hpos : 0 < (db.event_types.filter (fun x => x.id == et.id)).length :=
      length_pos_of_mem_filter _ _ et hmem (by simp)
    unfold deleteEventType
    rw [if_neg hid, hfind]
    simp only [hdel1, Bool.false_eq_true, if_false]
    rw [h0]
    rw [if_neg (by omega : ¬(0 < 0))]
    rw [if_neg (by omega : ¬((db.event_types.filter (fun x => x.id == et.id)).length = 0))]

/-- C4 witness: the guard at the fixture store — event type 1 is used
by one active event and cannot be deleted; event type 3 is unused and
its delete succeeds. -/
theorem event_type_delete_dependency_guard_witness :
    deleteEventType dbW "2025-08-01T00:00:00" 1 =
      (Except.error (ApiError.conflict ("Cannot delete event type " ++ sq ++ "Flight" ++ sq ++
        " - it is used by " ++ natToStr (eventTypeUsageCount dbW 1) ++ " active events")), dbW) ∧
    natToStr (eventTypeUsageCount dbW 1) = "1" ∧
    (deleteEventType dbW "2025-08-01T00:00:00" 3).1 = Except.ok "2025-08-01T00:00:00" := by
  have h1 := (event_type_delete_dependency_guard dbW "2025-08-01T00:00:00" etA
    (by decide) (by decide) (by decide)).1 (by decide)
  have h2 := (event_type_delete_dependency_guard dbW "2025-08-01T00:00:00" etC
    (by decide) (by decide) (by decide)).2 (by decide)
  exact ⟨h1, by decide, congrArg Prod.fst h2⟩

/-- C5: event creation fails NotFound when the travel is absent, Gone
when the travel is soft-deleted, and with a 400 validation error when
the referenced event type is absent or soft-deleted; in every case the
store is unchanged. -/
theorem create_event_reference_errors (db : DB) (now : String) (travel_id : Nat)
    (req : CreateEventRequest) (hid : travel_id ≠ 0) :
    (db.travels.find? (fun r => r.id == travel_id) = none →
      createTravelEvent db now travel_id req =
        (Except.error (ApiError.notFound ("Travel with ID " ++ natToStr travel_id ++ " not found")), db))
    ∧ (∀ t, db.travels.find? (fun r => r.id == travel_id) = some t → t.is_deleted = 1 →
      createTravelEvent db now travel_id req =
        (Except.error (ApiError.gone ("Travel with ID " ++ natToStr travel_id ++ " has been deleted")), db))
    ∧ (∀ t, db.travels.find? (fun r => r.id == travel_id) = some t → t.is_deleted = 0 →
      (∀ et ∈ db.event_types, et.id = req.event_type_id → et.is_deleted = 1) →
      createTravelEvent db now travel_id req =
        (Except.error (ApiError.badRequest ("Event type with ID " ++ natToStr req.event_type_id ++
          " not found or deleted")), db)) := by
  refine ⟨?_, ?_, ?_⟩
  · intro hnone
    unfold createTravelEvent
    rw [if_neg hid, hnone]
  · intro t hfind hdel
    unfold createTravelEvent
    rw [if_neg hid, hfind]
    simp [hdel]
  · intro t hfind hlive hstale
    have hnone : db.event_types.find? (fun et => et.id == req.event_type_id && et.is_deleted == 0) = none := by
      rw [List.find?_eq_none]
      intro et hmem
      by_cases h : et.id = req.event_type_id
      · have := hstale et hmem h
        simp [h, this]
      · simp [h]
    unfold createTravelEvent
    rw [if_neg hid, hfind]
    have hlive1 : (t.is_deleted == 1) = false := by simp [hlive]
    simp only [hlive1, Bool.false_eq_true, if_false]
    rw [hnone]

/-- C5 witness: the three reference failures at concrete stores. -/
theorem create_event_reference_errors_witness :
    createTravelEvent dbW "2025-08-01T00:00:00" 5
        ⟨"Dinner", none, 2, "2025-06-04T19:00:00", "2025-06-04T21:00:00", none⟩ =
      (Except.error (ApiError.notFound ("Travel with ID " ++ natToStr 5 ++ " not found")), dbW) ∧
    createTravelEvent dbW "2025-08-01T00:00:00" 2
        ⟨"Dinner", none, 1, "2025-06-04T19:00:00", "2025-06-04T21:00:00", none⟩ =
      (Except.error (ApiError.gone ("Travel with ID " ++ natToStr 2 ++ " has been deleted")), dbW) ∧
    createTravelEvent dbW "2025-08-01T00:00:00" 1
        ⟨"Dinner", none, 2, "2025-06-04T19:00:00", "2025-06-04T21:00:00", none⟩ =
      (Except.error (ApiError.badRequest ("Event type with ID " ++ natToStr 2 ++
        " not found or deleted")), dbW) := by
  refine ⟨?_, ?_, ?_⟩
  · exact (create_event_reference_errors dbW "2025-08-01T00:00:00" 5
      ⟨"Dinner", none, 2, "2025-06-04T19:00:00", "2025-06-04T21:00:00", none⟩ (by decide)).1
      (by decide)
  · exact (create_event_reference_errors dbW "2025-08-01T00:00:00" 2
      ⟨"Dinner", none, 1, "2025-06-04T19:00:00", "2025-06-04T21:00:00", none⟩ (by decide)).2.1
      trB (by decide) (by decide)
  · exact (create_event_reference_errors dbW "2025-08-01T00:00:00" 1
      ⟨"Dinner", none, 2, "2025-06-04T19:00:00", "2025-06-04T21:00:00", none⟩ (by decide)).2.2
      trA (by decide) (by decide) (by decide)

/-- C8 counterexample: the active-events sub-route is NOT permitted for
a soft-deleted travel — listing the events of the deleted travel 2
fails with Gone, contradicting the claim that both ID-based sub-routes
still work. -/
theorem deleted_travel_subroutes_counterexample :
    listTravelEvents dbW 2 10 0 none none none none =
      Except.error (ApiError.gone ("Travel with ID 2 has been deleted")) := by
  rfl

/-- C8 (amended): for a soft-deleted travel that exists, the
deleted-events sub-route still succeeds, while both the travel-level
get-by-id and the active-events sub-route fail Gone; soft-deleting a
travel never changes any event row. -/
theorem deleted_travel_subroutes (db : DB) (tr : TravelRow)
    (hfind : db.travels.find? (fun x => x.id == tr.id) = some tr)
    (hdel : tr.is_deleted = 1) (hid : tr.id ≠ 0) :
    (∀ limit offset, ∃ res, listTravelDeletedEvents db tr.id limit offset = Except.ok res)
    ∧ getTravel db tr.id =
        Except.error (ApiError.gone ("Travel with ID " ++ natToStr tr.id ++ " has been deleted"))
    ∧ (∀ limit offset sdf sdt etid loc, listTravelEvents db tr.id limit offset sdf sdt etid loc =
        Except.error (ApiError.gone ("Travel with ID " ++ natToStr tr.id ++ " has been deleted")))
    ∧ (∀ (now : String) (tid : Nat), (deleteTravel db now tid).2.events = db.events) := by
  refine ⟨?_, ?_, ?_, ?_⟩
  · intro limit offset
    unfold listTravelDeletedEvents
    rw [if_neg hid, hfind]
    exact ⟨_, rfl⟩
  · unfold getTravel
    rw [if_neg hid, hfind]
    simp [hdel]
  · intro limit offset sdf sdt etid loc
    unfold listTravelEvents
    rw [if_neg hid, hfind]
    simp [hdel]
  · intro now tid
    unfold deleteTravel
    dsimp only
    split
    · rfl
    · split
      · rfl
      · split
        · rfl
        · split
          · rfl
          · rfl

/-- C8 witness: the amended behavior at the fixture store's deleted
travel 2. -/
theorem deleted_travel_subroutes_witness :
    (∃ res, listTravelDeletedEvents dbW 2 10 0 = Except.ok res) ∧
    getTravel dbW 2 =
      Except.error (ApiError.gone ("Travel with ID " ++ natToStr 2 ++ " has been deleted")) ∧
    (deleteTravel dbW "2025-08-01T00:00:00" 1).2.events = dbW.events := by
  have h := deleted_travel_subroutes dbW trB (by decide) (by decide) (by decide)
  exact ⟨h.1 10 0, h.2.1, h.2.2.2 "2025-08-01T00:00:00" 1⟩

/-- C10: an active event whose referenced event type is soft-deleted is
still returned by get-by-id and by the travel's active-events listing,
with the stale type's name, color and icon joined in: the LEFT JOIN is
by id only and never inspects the event type's is_deleted flag. -/
theorem stale_event_type_join (db : DB) (ev : EventRow) (et : EventTypeRow)
    (hfe : db.events.find? (fun x => x.id == ev.id) = some ev)
    (hlive : ev.is_deleted = 0) (hid : ev.id ≠ 0)
    (hfet : db.event_types.find? (fun x => x.id == ev.event_type_id) = some et)
    (hdel : et.is_deleted = 1) :
    (getEvent db ev.id = Except.ok (eventToResponse db ev) ∧
      (eventToResponse db ev).event_type_name = some et.name ∧
      (eventToResponse db ev).event_type_color = some et.color ∧
      (eventToResponse db ev).event_type_icon = et.icon)
    ∧ (∀ t, db.travels.find? (fun x => x.id == ev.travel_id) = some t → t.is_deleted = 0 →
        ev.travel_id ≠ 0 →
        ∀ limit, (db.events.filter (travelEventListPred ev.travel_id none none none none)).length ≤ limit →
        ∃ res, listTravelEvents db ev.travel_id limit 0 none none none none = Except.ok res ∧
          eventToResponse db ev ∈ res.data) := by
  have hjoin : joinEventType db ev = some et := hfet
  constructor
  · refine ⟨?_, ?_, ?_, ?_⟩
    · unfold getEvent
      rw [if_neg hid, hfe]
      simp [hlive]
    · simp [eventToResponse, hjoin]
    · simp [eventToResponse, hjoin]
    · simp [eventToResponse, hjoin]
  · intro t hft htlive htid limit hlim
    have htlive1 : (t.is_deleted == 1) = false := by simp [htlive]
    have hpred : travelEventListPred ev.travel_id none none none none ev = true := by
      simp [travelEventListPred, strTruthy, natTruthy, hlive]
    have hmem : ev ∈ db.events := List.mem_of_find?_eq_some hfe
    have hmemf : ev ∈ db.events.filter (travelEventListPred ev.travel_id none none none none) :=
      List.mem_filter.mpr ⟨hmem, hpred⟩
    have hmems : ev ∈ travelEventsMatching db ev.travel_id none none none none := by
      unfold travelEventsMatching
      exact (List.mem_insertionSort _).mpr hmemf
    have htake : ((travelEventsMatching db ev.travel_id none none none none).drop 0).take limit =
        travelEventsMatching db ev.travel_id none none none none := by
      rw [List.drop_zero]
      apply List.take_of_length_le
      unfold travelEventsMatching
      rw [List.length_insertionSort]
      exact hlim
    unfold listTravelEvents
    rw [if_neg htid, hft]
    simp only [htlive1, Bool.false_eq_true, if_false, strTruthy, Bool.false_and,
      Bool.false_eq_true, if_false]
    refine ⟨_, rfl, ?_⟩
    simp only [htake]
    exact List.mem_map_of_mem (eventToResponse db) hmems

/-- C10 witness: event 3 of the fixture store references the
soft-deleted event type 2 and is still served with that type's display
fields. -/
theorem stale_event_type_join_witness :
    (getEvent dbW 3 = Except.ok (eventToResponse dbW evC) ∧
      (eventToResponse dbW evC).event_type_name = some "Hotel") ∧
    (∃ res, listTravelEvents dbW 1 10 0 none none none none = Except.ok res ∧
      eventToResponse dbW evC ∈ res.data) := by
  have h := stale_event_type_join dbW evC etB (by decide) (by decide) (by decide)
    (by decide) (by decide)
  exact ⟨⟨h.1.1, h.1.2.1⟩, h.2 trA (by decide) (by decide) (by decide) 10 (by decide)⟩

theorem listTravels_ok_inv (db : DB) (limit offset : Nat)
    (title destination sdf sdt edf edt : Option String) (res : Paged TravelResponse)
    (h : listTravels db limit offset title destination sdf sdt edf edt = Except.ok res) :
    res = ⟨(((travelsMatching db title destination sdf sdt edf edt).drop offset).take limit).map travelToResponse,
      ⟨offset / limit + 1, limit,
        (db.travels.filter (travelListPred title destination sdf sdt edf edt)).length,
        ((db.travels.filter (travelListPred title destination sdf sdt edf edt)).length + limit - 1) / limit⟩⟩ := by
  unfold listTravels at h
  split_ifs at h
  all_goals first
  | exact Except.noConfusion h
  | exact (Except.ok.inj h).symm

/-- C3: for every successful travels listing with limit at least one,
the reported total counts the matching rows, pages is the ceiling of
total over limit (both as the integer formula and as least upper
bound), page is offset div limit plus one, and stepping the offset by
limit through all pages tiles the matching rows exactly — no row
duplicated, none omitted. -/
theorem list_travels_pagination (db : DB) (limit offset : Nat) (hl : 0 < limit)
    (title destination sdf sdt edf edt : Option String)
    (res : Paged TravelResponse)
    (h : listTravels db limit offset title destination sdf sdt edf edt = Except.ok res) :
    res.pagination.total = (db.travels.filter (travelListPred title destination sdf sdt edf edt)).length ∧
    res.pagination.pages = (res.pagination.total + limit - 1) / limit ∧
    res.pagination.total ≤ res.pagination.pages * limit ∧
    (∀ m, res.pagination.total ≤ m * limit → res.pagination.pages ≤ m) ∧
    res.pagination.page = offset / limit + 1 ∧
    (travelsMatching db title destination sdf sdt edf edt).length = res.pagination.total ∧
    (List.range res.pagination.pages).flatMap
        (fun k => ((travelsMatching db title destination sdf sdt edf edt).drop (k * limit)).take limit)
      = travelsMatching db title destination sdf sdt edf edt ∧
    (∀ k res2, listTravels db limit (k * limit) title destination sdf sdt edf edt = Except.ok res2 →
      res2.data = (((travelsMatching db title destination sdf sdt edf edt).drop (k * limit)).take limit).map travelToResponse) ∧
    res.data = (((travelsMatching db title destination sdf sdt edf edt).drop offset).take limit).map travelToResponse := by
  have hres := listTravels_ok_inv db limit offset title destination sdf sdt edf edt res h
  subst hres
  have hlen : (travelsMatching db title destination sdf sdt edf edt).length =
      (db.travels.filter (travelListPred title destination sdf sdt edf edt)).length := by
    unfold travelsMatching
    exact List.length_insertionSort _ _
  refine ⟨rfl, rfl, ?_, ?_, rfl, hlen, ?_, ?_, rfl⟩
  · exact ceil_div_ge _ limit hl
  · intro m hm
    exact ceil_div_min _ limit m hl hm
  · have hchunks := range_flatMap_chunks limit hl
      (travelsMatching db title destination sdf sdt edf edt).length
      (travelsMatching db title destination sdf sdt edf edt) le_rfl
    rw [hlen] at hchunks
    exact hchunks
  · intro k res2 h2
    have hres2 := listTravels_ok_inv db limit (k * limit) title destination sdf sdt edf edt res2 h2
    subst hres2
    rfl

/-- C3 witness: the pagination contract at the fixture store with
limit one. -/
theorem list_travels_pagination_witness :
    listTravels dbW 1 0 none none none none none none =
      Except.ok ⟨[travelToResponse trA], ⟨1, 1, 1, 1⟩⟩ ∧
    (1 : Nat) = (1 + 1 - 1) / 1 ∧
    (List.range 1).flatMap
        (fun k => ((travelsMatching dbW none none none none none none).drop (k * 1)).take 1)
      = travelsMatching dbW none none none none none none := by
  have hok : listTravels dbW 1 0 none none none none none none =
      Except.ok ⟨[travelToResponse trA], ⟨1, 1, 1, 1⟩⟩ := by rfl
  have h := list_travels_pagination dbW 1 0 (by decide) none none none none none none
    ⟨[travelToResponse trA], ⟨1, 1, 1, 1⟩⟩ hok
  exact ⟨hok, h.2.1, h.2.2.2.2.2.2.1⟩

theorem listTravelEvents_ok_inv (db : DB) (tid limit offset : Nat)
    (sdf sdt : Option String) (etid : Option Nat) (loc : Option String)
    (res : Paged EventResponse)
    (h : listTravelEvents db tid limit offset sdf sdt etid loc = Except.ok res) :
    res.data = (((travelEventsMatching db tid sdf sdt etid loc).drop offset).take limit).map
      (eventToResponse db) := by
  unfold listTravelEvents at h
  by_cases h0 : tid = 0
  · rw [if_pos h0] at h
    exact Except.noConfusion h
  · rw [if_neg h0] at h
    cases hf : db.travels.find? (fun r => r.id == tid) with
    | none =>
      simp only [hf] at h
      exact Except.noConfusion h
    | some t =>
      simp only [hf] at h
      split_ifs at h
      all_goals first
      | exact Except.noConfusion h
      | exact congrArg Paged.data (Except.ok.inj h).symm

theorem listEventTypes_ok_inv (db : DB) (limit offset : Nat) (cat : Option String)
    (res : Paged EventTypeResponse)
    (h : listEventTypes db limit offset cat = Except.ok res) :
    res.data = (((eventTypesMatching db cat).drop offset).take limit).map eventTypeToResponse := by
  unfold listEventTypes at h
  split_ifs at h
  all_goals first
  | exact Except.noConfusion h
  | exact congrArg Paged.data (Except.ok.inj h).symm

/-- C1: a soft-deleted row of any of the three entities never appears
in the default listing, appears in the deleted listing once the limit
covers the deleted rows, and get-by-id on its id fails Gone. -/
theorem soft_delete_visibility (db : DB) :
    (∀ r : TravelRow, r ∈ db.travels → r.is_deleted = 1 →
      (db.travels.map (fun x => x.id)).Nodup → r.id ≠ 0 →
      (∀ limit offset t d a b c e res,
        listTravels db limit offset t d a b c e = Except.ok res →
        ∀ x ∈ res.data, x.id ≠ r.id) ∧
      (∀ limit, (db.travels.filter (fun x => x.is_deleted == 1)).length ≤ limit →
        ∃ res, listDeletedTravels db limit 0 none none none none = Except.ok res ∧
          travelToDeletedResponse r ∈ res.data) ∧
      getTravel db r.id =
        Except.error (ApiError.gone ("Travel with ID " ++ natToStr r.id ++ " has been deleted")))
    ∧
    (∀ r : EventRow, r ∈ db.events → r.is_deleted = 1 →
      (db.events.map (fun x => x.id)).Nodup → r.id ≠ 0 →
      (∀ tid limit offset a b c d res,
        listTravelEvents db tid limit offset a b c d = Except.ok res →
        ∀ x ∈ res.data, x.id ≠ r.id) ∧
      (∀ limit, (db.travels.find? (fun t => t.id == r.travel_id)).isSome → r.travel_id ≠ 0 →
        (db.events.filter (fun e => e.travel_id == r.travel_id && e.is_deleted == 1)).length ≤ limit →
        ∃ res, listTravelDeletedEvents db r.travel_id limit 0 = Except.ok res ∧
          eventToDeletedResponse db r ∈ res.data) ∧
      getEvent db r.id =
        Except.error (ApiError.gone ("Event with ID " ++ natToStr r.id ++ " has been deleted")))
    ∧
    (∀ r : EventTypeRow, r ∈ db.event_types → r.is_deleted = 1 →
      (db.event_types.map (fun x => x.id)).Nodup → r.id ≠ 0 →
      (∀ limit offset cat res,
        listEventTypes db limit offset cat = Except.ok res →
        ∀ x ∈ res.data, x.id ≠ r.id) ∧
      (∀ limit, (db.event_types.filter (fun x => x.is_deleted == 1)).length ≤ limit →
        ∃ res, listDeletedEventTypes db limit 0 = Except.ok res ∧
          eventTypeToDeletedResponse r ∈ res.data) ∧
      getEventType db r.id =
        Except.error (ApiError.gone ("Event type with ID " ++ natToStr r.id ++ " has been deleted"))) := by
  refine ⟨?_, ?_, ?_⟩
  · intro r hmem hdel hnd hid
    refine ⟨?_, ?_, ?_⟩
    · intro limit offset t d a b c e res hok x hx
      have hres := listTravels_ok_inv db limit offset t d a b c e res hok
      rw [hres] at hx
      simp only at hx
      obtain ⟨y, hy, hxy⟩ := List.mem_map.mp hx
      have hy1 : y ∈ travelsMatching db t d a b c e :=
        List.mem_of_mem_drop (List.mem_of_mem_take hy)
      have hy2 : y ∈ db.travels.filter (travelListPred t d a b c e) := by
        unfold travelsMatching at hy1
        exact (List.mem_insertionSort _).mp hy1
      obtain ⟨hy3, hy4⟩ := List.mem_filter.mp hy2
      have hy5 : y.is_deleted = 0 := by
        unfold travelListPred at hy4
        simp only [Bool.and_eq_true, beq_iff_eq] at hy4
        exact hy4.1.1.1.1.1.1
      intro hxid
      have hyid : y.id = r.id := by
        rw [← hxy] at hxid
        exact hxid
      have : y = r := List.inj_on_of_nodup_map hnd hy3 hmem hyid
      rw [this] at hy5
      rw [hy5] at hdel
      exact Nat.noConfusion hdel
    · intro limit hlim
      have hpredeq : deletedTravelListPred none none none none = fun x => x.is_deleted == 1 := by
        funext x
        simp [deletedTravelListPred, strTruthy]
      have hmemf : r ∈ db.travels.filter (deletedTravelListPred none none none none) := by
        rw [hpredeq]
        exact List.mem_filter.mpr ⟨hmem, by simp [hdel]⟩
      have hmems : r ∈ deletedTravelsMatching db none none none none := by
        unfold deletedTravelsMatching
        exact (List.mem_insertionSort _).mpr hmemf
      have htake : ((deletedTravelsMatching db none none none none).drop 0).take limit =
          deletedTravelsMatching db none none none none := by
        rw [List.drop_zero]
        apply List.take_of_length_le
        unfold deletedTravelsMatching
        rw [List.length_insertionSort, hpredeq]
        exact hlim
      unfold listDeletedTravels
      simp only [strTruthy, Bool.false_and, Bool.false_eq_true, if_false]
      refine ⟨_, rfl, ?_⟩
      simp only [htake]
      exact List.mem_map_of_mem travelToDeletedResponse hmems
    · have hfind : db.travels.find? (fun x => x.id == r.id) = some r := by
        have h := find?_key_eq (fun x : TravelRow => x.id) r.id db.travels hnd r hmem rfl
        exact h
      unfold getTravel
      rw [if_neg hid, hfind]
      simp [hdel]
  · intro r hmem hdel hnd hid
    refine ⟨?_, ?_, ?_⟩
    · intro tid limit offset a b c d res hok x hx
      have hres := listTravelEvents_ok_inv db tid limit offset a b c d res hok
      rw [hres] at hx
      obtain ⟨y, hy, hxy⟩ := List.mem_map.mp hx
      have hy1 : y ∈ travelEventsMatching db tid a b c d :=
        List.mem_of_mem_drop (List.mem_of_mem_take hy)
      have hy2 : y ∈ db.events.filter (travelEventListPred tid a b c d) := by
        unfold travelEventsMatching at hy1
        exact (List.mem_insertionSort _).mp hy1
      obtain ⟨hy3, hy4⟩ := List.mem_filter.mp hy2
      have hy5 : y.is_deleted = 0 := by
        unfold travelEventListPred at hy4
        simp only [Bool.and_eq_true, beq_iff_eq] at hy4
        exact hy4.1.1.1.1.2
      intro hxid
      have hyid : y.id = r.id := by
        rw [← hxy] at hxid
        exact hxid
      have : y = r := List.inj_on_of_nodup_map hnd hy3 hmem hyid
      rw [this] at hy5
      rw [hy5] at hdel
      exact Nat.noConfusion hdel
    · intro limit hsome htid hlim
      obtain ⟨t, hft⟩ := Option.isSome_iff_exists.mp hsome
      have hmemf : r ∈ db.events.filter (fun e => e.travel_id == r.travel_id && e.is_deleted == 1) :=
        List.mem_filter.mpr ⟨hmem, by simp [hdel]⟩
      have hmems : r ∈ travelDeletedEventsMatching db r.travel_id := by
        unfold travelDeletedEventsMatching
        exact (List.mem_insertionSort _).mpr hmemf
      have htake : ((travelDeletedEventsMatching db r.travel_id).drop 0).take limit =
          travelDeletedEventsMatching db r.travel_id := by
        rw [List.drop_zero]
        apply List.take_of_length_le
        unfold travelDeletedEventsMatching
        rw [List.length_insertionSort]
        exact hlim
      unfold listTravelDeletedEvents
      rw [if_neg htid, hft]
      refine ⟨_, rfl, ?_⟩
      simp only [htake]
      exact List.mem_map_of_mem (eventToDeletedResponse db) hmems
    · have hfind : db.events.find? (fun x => x.id == r.id) = some r := by
        have h := find?_key_eq (fun x : EventRow => x.id) r.id db.events hnd r hmem rfl
        exact h
      unfold getEvent
      rw [if_neg hid, hfind]
      simp [hdel]
  · intro r hmem hdel hnd hid
    refine ⟨?_, ?_, ?_⟩
    · intro limit offset cat res hok x hx
      have hres := listEventTypes_ok_inv db limit offset cat res hok
      rw [hres] at hx
      obtain ⟨y, hy, hxy⟩ := List.mem_map.mp hx
      have hy1 : y ∈ eventTypesMatching db cat :=
        List.mem_of_mem_drop (List.mem_of_mem_take hy)
      have hy2 : y ∈ db.event_types.filter (eventTypeListPred cat) := by
        unfold eventTypesMatching at hy1
        exact (List.mem_insertionSort _).mp hy1
      obtain ⟨hy3, hy4⟩ := List.mem_filter.mp hy2
      have hy5 : y.is_deleted = 0 := by
        unfold eventTypeListPred at hy4
        simp only [Bool.and_eq_true, beq_iff_eq] at hy4
        exact hy4.1
      intro hxid
      have hyid : y.id = r.id := by
        rw [← hxy] at hxid
        exact hxid
      have : y = r := List.inj_on_of_nodup_map hnd hy3 hmem hyid
      rw [this] at hy5
      rw [hy5] at hdel
      exact Nat.noConfusion hdel
    · intro limit hlim
      have hmemf : r ∈ db.event_types.filter (fun x => x.is_deleted == 1) :=
        List.mem_filter.mpr ⟨hmem, by simp [hdel]⟩
      have hmems : r ∈ deletedEventTypesMatching db := by
        unfold deletedEventTypesMatching
        exact (List.mem_insertionSort _).mpr hmemf
      have htake : ((deletedEventTypesMatching db).drop 0).take limit =
          deletedEventTypesMatching db := by
        rw [List.drop_zero]
        apply List.take_of_length_le
        unfold deletedEventTypesMatching
        rw [List.length_insertionSort]
        exact hlim
      unfold listDeletedEventTypes
      refine ⟨_, rfl, ?_⟩
      simp only [htake]
      exact List.mem_map_of_mem eventTypeToDeletedResponse hmems
    · have hfind : db.event_types.find? (fun x => x.id == r.id) = some r := by
        have h := find?_key_eq (fun x : EventTypeRow => x.id) r.id db.event_types hnd r hmem rfl
        exact h
      unfold getEventType
      rw [if_neg hid, hfind]
      simp [hdel]

/-- C1 witness: the visibility triple at the fixture store's deleted
travel, event and event type. -/
theorem soft_delete_visibility_witness :
    (getTravel dbW 2 = Except.error (ApiError.gone ("Travel with ID " ++ natToStr 2 ++ " has been deleted")) ∧
      (∃ res, listDeletedTravels dbW 10 0 none none none none = Except.ok res ∧
        travelToDeletedResponse trB ∈ res.data)) ∧
    (getEvent dbW 2 = Except.error (ApiError.gone ("Event with ID " ++ natToStr 2 ++ " has been deleted")) ∧
      (∃ res, listTravelDeletedEvents dbW 1 10 0 = Except.ok res ∧
        eventToDeletedResponse dbW evB ∈ res.data)) ∧
    (getEventType dbW 2 = Except.error (ApiError.gone ("Event type with ID " ++ natToStr 2 ++ " has been deleted")) ∧
      (∃ res, listDeletedEventTypes dbW 10 0 = Except.ok res ∧
        eventTypeToDeletedResponse etB ∈ res.data)) := by
  obtain ⟨hT, hE, hET⟩ := soft_delete_visibility dbW
  have h1 := hT trB (by decide) (by decide) (by decide) (by decide)
  have h2 := hE evB (by decide) (by decide) (by decide) (by decide)
  have h3 := hET etB (by decide) (by decide) (by decide) (by decide)
  exact ⟨⟨h1.2.2, h1.2.1 10 (by decide)⟩,
    ⟨h2.2.2, h2.2.1 10 (by decide) (by decide) (by decide)⟩,
    ⟨h3.2.2, h3.2.1 10 (by decide)⟩⟩

theorem charLower_idem (c : Char) : charLower (charLower c) = charLower c := by
  unfold charLower
  by_cases h : 65 ≤ c.toNat ∧ c.toNat ≤ 90
  · rw [if_pos h]
    have hv : (c.toNat + 32).isValidChar := Or.inl (by omega)
    have ht : (Char.ofNat (c.toNat + 32)).toNat = c.toNat + 32 := by
      simp [Char.ofNat, hv]
      rfl
    have hout : ¬(65 ≤ (Char.ofNat (c.toNat + 32)).toNat ∧ (Char.ofNat (c.toNat + 32)).toNat ≤ 90) := by
      rw [ht]
      omega
    rw [if_neg hout]
  · rw [if_neg h, if_neg h]

theorem strLower_idem (s : String) : strLower (strLower s) = strLower s := by
  unfold strLower
  have hdata : (String.mk (s.toList.map charLower)).toList = s.toList.map charLower := rfl
  rw [hdata, List.map_map]
  have : charLower ∘ charLower = charLower := by
    funext c
    exact charLower_idem c
  rw [this]

theorem find?_append_of_none {α : Type} (p : α → Bool) :
    ∀ (l1 l2 : List α), l1.find? p = none → (l1 ++ l2).find? p = l2.find? p := by
  intro l1
  induction l1 with
  | nil => intro l2 _; rfl
  | cons a t ih =>
    intro l2 hnone
    cases hv : p a with
    | true =>
      simp only [List.find?_cons, hv] at hnone
      exact Option.noConfusion hnone
    | false =>
      have h1 : List.find? p t = none := by
        simpa [List.find?_cons, hv] using hnone
      rw [List.cons_append]
      simp only [List.find?_cons, hv]
      exact ih l2 h1

theorem le_foldr_max : ∀ (ids : List Nat) (i : Nat), i ∈ ids → i ≤ ids.foldr max 0 := by
  intro ids
  induction ids with
  | nil => intro i hi; cases hi
  | cons a t ih =>
    intro i hi
    rcases List.mem_cons.mp hi with rfl | hit
    · exact Nat.le_max_left i (t.foldr max 0)
    · exact Nat.le_trans (ih i hit) (Nat.le_max_right a (t.foldr max 0))

theorem nextId_fresh (ids : List Nat) : ∀ i ∈ ids, i ≠ nextId ids := by
  intro i hi
  have := le_foldr_max ids i hi
  unfold nextId
  omega

theorem createEventType_ok_inv (db : DB) (now : String) (req : CreateEventTypeRequest)
    (r1 : EventTypeResponse) (db1 : DB)
    (hn : req.name ≠ "") (hc : req.category ≠ "")
    (h : createEventType db now req = (Except.ok r1, db1)) :
    eventTypeDuplicate db (sanitizeInput req.name) (sanitizeInput req.category) = none ∧
    db1 = ⟨db.travels, db.events, db.event_types ++
      [⟨nextId (db.event_types.map (fun r => r.id)), sanitizeInput req.name,
        strLower (sanitizeInput req.category), req.color,
        (match req.icon with
         | some i => if i == "" then none else some (sanitizeInput i)
         | none => none), 0, none, now, now⟩]⟩ := by
  have hn1 : (req.name == "") = false := by simp [hn]
  have hc1 : (req.category == "") = false := by simp [hc]
  unfold createEventType at h
  rw [hn1, hc1] at h
  simp only [Bool.false_eq_true, if_false] at h
  split_ifs at h
  all_goals try exact Except.noConfusion (congrArg Prod.fst h)
  cases hdup : eventTypeDuplicate db (sanitizeInput req.name) (sanitizeInput req.category) with
  | some z =>
    rw [hdup] at h
    exact Except.noConfusion (congrArg Prod.fst h)
  | none =>
    rw [hdup] at h
    dsimp only at h
    split at h
    · exact Except.noConfusion (congrArg Prod.fst h)
    · exact ⟨rfl, (congrArg Prod.snd h).symm⟩

/-- C6: the case-insensitive (name, category) uniqueness rule — a
second create whose sanitized name and category agree with a successful
first create after lowercasing fails Conflict and inserts nothing, and
the same re-check runs on update when the name changes, excluding the
row being updated itself (an update colliding only with itself
succeeds). -/
theorem event_type_uniqueness :
    (∀ (db : DB) (now1 now2 : String) (req1 req2 : CreateEventTypeRequest)
        (r1 : EventTypeResponse) (db1 : DB),
      createEventType db now1 req1 = (Except.ok r1, db1) →
      req1.name ≠ "" → req1.category ≠ "" →
      validateHexColor req2.color = true →
      validateCategory req2.category = true →
      (strTruthy req2.icon && !validateIcon req2.icon) = false →
      req2.name ≠ "" → sanitizeInput req2.name ≠ "" →
      req2.category ≠ "" → sanitizeInput req2.category ≠ "" →
      strLower (sanitizeInput req2.name) = strLower (sanitizeInput req1.name) →
      strLower (sanitizeInput req2.category) = strLower (sanitizeInput req1.category) →
      createEventType db1 now2 req2 =
        (Except.error (ApiError.conflict ("Event type with name " ++ sq ++ sanitizeInput req2.name ++ sq ++
          " already exists in category " ++ sq ++ sanitizeInput req2.category ++ sq)), db1))
    ∧
    (∀ (db : DB) (now : String) (existing other : EventTypeRow) (nm : String),
      db.event_types.find? (fun x => x.id == existing.id) = some existing →
      existing.is_deleted = 0 → existing.id ≠ 0 →
      nm ≠ "" → sanitizeInput nm ≠ "" →
      other ∈ db.event_types → other.id ≠ existing.id → other.is_deleted = 0 →
      strLower other.name = strLower nm →
      strLower other.category = strLower existing.category →
      updateEventType db now existing.id ⟨some nm, none, none, none⟩ =
        (Except.error (ApiError.conflict ("Event type with name " ++ sq ++ nm ++ sq ++
          " already exists in category " ++ sq ++ existing.category ++ sq)), db))
    ∧
    (∀ (db : DB) (now : String) (existing : EventTypeRow) (nm : String),
      db.event_types.find? (fun x => x.id == existing.id) = some existing →
      existing.is_deleted = 0 → existing.id ≠ 0 →
      nm ≠ "" → sanitizeInput nm ≠ "" →
      (∀ x ∈ db.event_types, x.id ≠ existing.id →
        ¬(strLower x.name = strLower nm ∧ strLower x.category = strLower existing.category ∧
          x.is_deleted = 0)) →
      (updateEventType db now existing.id ⟨some nm, none, none, none⟩).1 =
        Except.ok (eventTypeToResponse { existing with name := sanitizeInput nm, updated_at := now })) := by
  refine ⟨?_, ?_, ?_⟩
  · intro db now1 now2 req1 req2 r1 db1 hok hname1 hcat1 hcol2 hcat2v hicon2 hn2 hs2 hc2 hsc2 hname hcat
    obtain ⟨hdupnone, hdb1⟩ := createEventType_ok_inv db now1 req1 r1 db1 hname1 hcat1 hok
    have hpredeq : (fun r : EventTypeRow => strLower r.name == strLower (sanitizeInput req2.name) &&
          strLower r.category == strLower (sanitizeInput req2.category) && r.is_deleted == 0)
        = (fun r : EventTypeRow => strLower r.name == strLower (sanitizeInput req1.name) &&
          strLower r.category == strLower (sanitizeInput req1.category) && r.is_deleted == 0) := by
      funext r
      rw [hname, hcat]
    have hold2 : db.event_types.find? (fun r : EventTypeRow =>
        strLower r.name == strLower (sanitizeInput req2.name) &&
        strLower r.category == strLower (sanitizeInput req2.category) && r.is_deleted == 0) = none := by
      rw [hpredeq]
      exact hdupnone
    have hdup2 : eventTypeDuplicate db1 (sanitizeInput req2.name) (sanitizeInput req2.category) =
        some ⟨nextId (db.event_types.map (fun r => r.id)), sanitizeInput req1.name,
          strLower (sanitizeInput req1.category), req1.color,
          (match req1.icon with
           | some i => if i == "" then none else some (sanitizeInput i)
           | none => none), 0, none, now1, now1⟩ := by
      rw [hdb1]
      unfold eventTypeDuplicate
      rw [find?_append_of_none _ _ _ hold2]
      have h1 : (strLower (sanitizeInput req1.name) == strLower (sanitizeInput req2.name)) = true := by
        simp [hname]
      have h2 : (strLower (strLower (sanitizeInput req1.category)) == strLower (sanitizeInput req2.category)) = true := by
        rw [strLower_idem, hcat]
        simp
      simp only [List.find?_cons, h1, h2, Bool.and_true, Bool.true_and]
      rfl
    have hn21 : (req2.name == "") = false := by simp [hn2]
    have hc21 : (req2.category == "") = false := by simp [hc2]
    have hs21 : (sanitizeInput req2.name == "") = false := by simp [hs2]
    have hsc21 : (sanitizeInput req2.category == "") = false := by simp [hsc2]
    unfold createEventType
    rw [hn21, hc21]
    simp only [Bool.false_eq_true, if_false, hcol2, hcat2v, hicon2, Bool.not_true, hs21, hsc21]
    rw [hdup2]
  · intro db now existing other nm hfind hlive hid hn hs hother hoid holive honame hocat
    have hlive1 : (existing.is_deleted == 1) = false := by simp [hlive]
    have hs1 : (sanitizeInput nm == "") = false := by simp [hs]
    have hn1 : (nm == "") = false := by simp [hn]
    unfold updateEventType
    rw [if_neg hid, hfind]
    simp only [hlive1, Bool.false_eq_true, if_false, Option.map_some', Option.map_none',
      Option.isSome_some, Option.isSome_none, Option.isNone_some, Option.getD_some,
      Bool.true_and, Bool.false_and, Bool.and_true, Bool.and_false, Bool.true_or,
      Bool.or_true, Bool.false_or, Bool.or_false, Bool.not_true, Bool.not_false,
      hs1, strTruthy, hn1, if_true, if_false]
    cases hdup : eventTypeDuplicateExcept db nm existing.category existing.id with
    | none =>
      have hsome : (db.event_types.find? (fun r =>
          strLower r.name == strLower nm && strLower r.category == strLower existing.category &&
          r.is_deleted == 0 && !(r.id == existing.id))).isSome := by
        rw [List.find?_isSome]
        refine ⟨other, hother, ?_⟩
        simp [honame, hocat, holive, hoid]
      unfold eventTypeDuplicateExcept at hdup
      rw [hdup] at hsome
      exact Bool.noConfusion hsome
    | some z =>
      rfl
  · intro db now existing nm hfind hlive hid hn hs hnodup
    have hlive1 : (existing.is_deleted == 1) = false := by simp [hlive]
    have hs1 : (sanitizeInput nm == "") = false := by simp [hs]
    have hn1 : (nm == "") = false := by simp [hn]
    have hmem : existing ∈ db.event_types := List.mem_of_find?_eq_some hfind
    have hdup : eventTypeDuplicateExcept db nm existing.category existing.id = none := by
      unfold eventTypeDuplicateExcept
      rw [List.find?_eq_none]
      intro x hx
      by_cases hxid : x.id = existing.id
      · simp [hxid]
      · have h := hnodup x hx hxid
        intro hcon
        simp only [Bool.and_eq_true, beq_iff_eq] at hcon
        exact absurd ⟨hcon.1.1.1, hcon.1.1.2, hcon.1.2⟩ h
    have hpos : ¬((db.event_types.filter (fun x => x.id == existing.id)).length = 0) := by
      have := length_pos_of_mem_filter (fun x => x.id == existing.id) db.event_types existing hmem (by simp)
      omega
    set g := fun x : EventTypeRow => if x.id == existing.id then
        { x with name := sanitizeInput nm, updated_at := now } else x with hg
    have hgid : ∀ x : EventTypeRow, ((g x).id) = x.id := by
      intro x
      by_cases h : x.id = existing.id <;> simp [hg, h]
    have hfind1 : (db.event_types.map g).find? (fun x => x.id == existing.id) = some (g existing) := by
      have h := find?_map_key (fun x : EventTypeRow => x.id) g hgid existing.id db.event_types
      rw [hfind] at h
      exact h
    have hge : g existing = { existing with name := sanitizeInput nm, updated_at := now } := by
      simp [hg]
    unfold updateEventType
    rw [if_neg hid, hfind]
    simp only [hlive1, Bool.false_eq_true, if_false, Option.map_some', Option.map_none',
      Option.isSome_some, Option.isSome_none, Option.isNone_some, Option.getD_some,
      Bool.true_and, Bool.false_and, Bool.and_true, Bool.and_false, Bool.true_or,
      Bool.or_true, Bool.false_or, Bool.or_false, Bool.not_true, Bool.not_false,
      hs1, strTruthy, hn1, if_true, if_false]
    rw [hdup]
    dsimp only
    rw [if_neg hpos]
    rw [hfind1, hge]

/-- C6 witness: creating Flight twice (second time in different case)
conflicts; renaming Bus to Flight conflicts with the existing Flight;
renaming Bus to Tram succeeds because only the row itself is excluded
from the re-check. -/
theorem event_type_uniqueness_witness :
    createEventType
        (⟨[], [], [⟨1, "Flight", "transportation", "#112233", none, 0, none, "T1", "T1"⟩]⟩ : DB)
        "T2" ⟨"FLIGHT", "Transportation", "#445566", none⟩ =
      (Except.error (ApiError.conflict ("Event type with name " ++ sq ++ "FLIGHT" ++ sq ++
        " already exists in category " ++ sq ++ "Transportation" ++ sq)),
        ⟨[], [], [⟨1, "Flight", "transportation", "#112233", none, 0, none, "T1", "T1"⟩]⟩) ∧
    updateEventType dbW "T3" 3 ⟨some "Flight", none, none, none⟩ =
      (Except.error (ApiError.conflict ("Event type with name " ++ sq ++ "Flight" ++ sq ++
        " already exists in category " ++ sq ++ "transportation" ++ sq)), dbW) ∧
    (updateEventType dbW "T3" 3 ⟨some "Tram", none, none, none⟩).1 =
      Except.ok (eventTypeToResponse { etC with name := "Tram", updated_at := "T3" }) := by
  obtain ⟨hA, hB, hC⟩ := event_type_uniqueness
  refine ⟨?_, ?_, ?_⟩
  · exact hA dbE "T1" "T2" ⟨"Flight", "transportation", "#112233", none⟩
      ⟨"FLIGHT", "Transportation", "#445566", none⟩
      ⟨1, "Flight", "transportation", "#112233", none, "T1", "T1"⟩
      ⟨[], [], [⟨1, "Flight", "transportation", "#112233", none, 0, none, "T1", "T1"⟩]⟩
      (by rfl) (by decide) (by decide) (by decide) (by decide) (by decide) (by decide)
      (by decide) (by decide) (by decide) (by decide) (by decide)
  · exact hB dbW "T3" etC etA "Flight" (by decide) (by decide) (by decide) (by decide)
      (by decide) (by decide) (by decide) (by decide) (by decide) (by decide)
  · exact hC dbW "T3" etC "Tram" (by decide) (by decide) (by decide) (by decide)
      (by decide) (by decide)

end TravelPlanner
